import Mathlib

/-!
Verification of the e_ticketer_backend canister
(src/src/e_ticketer_backend/src/lib.rs).

The canister keeps three durable stores (Event, User, Ticket), each a
`StableBTreeMap<u64, _>`, plus one durable `u64` id counter shared by all
three record kinds.  We embed the stores as association lists sorted by
key (the iteration order of a BTreeMap is ascending key order), machine
integers as `Nat`, the monotonic clock as an explicit `now` argument to
every operation that calls `time()`, and the fallible durable commit of
the id counter as an explicit `allocOk` flag (the `Cell::set` call in
`increment_id_counter` can fail, producing `Error::NotCreated`).

Every operation is a pure function from the canister state (and its
environment inputs) to a result together with the successor state; on an
error the returned state is the state at the point of the error, since
commits already performed by the Rust code are not rolled back.
-/

/-- `struct Event` from lib.rs. -/
structure Event where
  id : Nat
  name : String
  description : String
  date : String
  start_time : String
  location : String
  attendee_ids : List Nat
  ticket_ids : List Nat
  created_at : Nat
  updated_at : Option Nat
deriving DecidableEq, Repr

/-- `struct User` from lib.rs. -/
structure User where
  id : Nat
  name : String
  email : String
  password : String
  event_ids : List Nat
  ticket_ids : List Nat
  created_at : Nat
  updated_at : Option Nat
deriving DecidableEq, Repr

/-- `struct Ticket` from lib.rs. -/
structure Ticket where
  id : Nat
  event_id : Nat
  user_id : Nat
  created_at : Nat
  updated_at : Option Nat
deriving DecidableEq, Repr

/-- `Ticket::default()`: `u64` fields default to 0, `Option` to `None`. -/
def Ticket.deflt : Ticket :=
  { id := 0, event_id := 0, user_id := 0, created_at := 0, updated_at := none }

/-- `struct EventPayload` from lib.rs. -/
structure EventPayload where
  name : String
  description : String
  date : String
  start_time : String
  location : String
deriving DecidableEq, Repr

/-- `struct UserPayload` from lib.rs. -/
structure UserPayload where
  name : String
  email : String
  password : String
deriving DecidableEq, Repr

/-- `struct TicketPayload` from lib.rs. -/
structure TicketPayload where
  event_id : Nat
  user_id : Nat
deriving DecidableEq, Repr

/-- `enum Error` from lib.rs. -/
inductive Error where
  | NotFound (msg : String)
  | NotCreated (msg : String)
deriving DecidableEq, Repr

/-- The `msg` field of either `Error` variant. -/
def Error.msg : Error → String
  | .NotFound m => m
  | .NotCreated m => m

/-- `enum AssociationError` from lib.rs: a single variant `Err` carrying a
diagnostic message and a ticket record. -/
inductive AssociationError where
  | Err (msg : String) (ticket : Ticket)
deriving DecidableEq, Repr

/-- The ticket carried by an `AssociationError`. -/
def AssociationError.ticket : AssociationError → Ticket
  | .Err _ t => t

/-- A durable table keyed by `u64`, embedding `StableBTreeMap<u64, α>`:
an association list kept sorted by strictly increasing key. -/
abbrev Store (α : Type) := List (Nat × α)

/-- `StableBTreeMap::get`. -/
def Store.get {α : Type} : Store α → Nat → Option α
  | [], _ => none
  | (k, v) :: rest, id => if k = id then some v else Store.get rest id

/-- `StableBTreeMap::insert`: replaces the value at the key, or inserts the
pair at its sorted position. -/
def Store.insert {α : Type} : Store α → Nat → α → Store α
  | [], id, v => [(id, v)]
  | (k, w) :: rest, id, v =>
    if id < k then (id, v) :: (k, w) :: rest
    else if id = k then (id, v) :: rest
    else (k, w) :: Store.insert rest id v

/-- `StableBTreeMap::remove`. -/
def Store.remove {α : Type} (s : Store α) (id : Nat) : Store α :=
  s.filter (fun p => p.1 != id)

/-- The canister state: the shared id counter (`ID_COUNTER`, initialized
to 0) and the three stores (`EVENT_STORAGE`, `USER_STORAGE`,
`TICKET_STORAGE`). -/
structure St where
  counter : Nat
  events : Store Event
  users : Store User
  tickets : Store Ticket
deriving DecidableEq, Repr

/-- The state at canister installation: counter 0, all stores empty. -/
def initState : St := { counter := 0, events := [], users := [], tickets := [] }

/-- `_get_event`. -/
def _get_event (s : St) (id : Nat) : Option Event := Store.get s.events id

/-- `_get_user`. -/
def _get_user (s : St) (id : Nat) : Option User := Store.get s.users id

/-- `_get_ticket`. -/
def _get_ticket (s : St) (id : Nat) : Option Ticket := Store.get s.tickets id

/-- `increment_id_counter`: reads the counter and durably commits its
successor; `allocOk` tells whether the `Cell::set` commit succeeds.  On
failure the counter is not advanced and no id is issued. -/
def increment_id_counter (s : St) (allocOk : Bool) : Except Error Nat × St :=
  match allocOk with
  | true => (Except.ok (s.counter + 1), { s with counter := s.counter + 1 })
  | false => (Except.error (Error.NotCreated "Failed to increment ID counter"), s)

/-- `get_all_events`: iterates `EVENT_STORAGE` in ascending key order and
collects the records. -/
def get_all_events (s : St) : List Event := s.events.map Prod.snd

/-- `get_event`. -/
def get_event (s : St) (id : Nat) : Except Error Event :=
  match _get_event s id with
  | some event => Except.ok event
  | none => Except.error (Error.NotFound s!"event id:{id} does not exist")

/-- `create_event`. -/
def create_event (s : St) (payload : EventPayload) (now : Nat) (allocOk : Bool) :
    Except Error Event × St :=
  match increment_id_counter s allocOk with
  | (Except.error e, s1) => (Except.error e, s1)
  | (Except.ok id, s1) =>
    let event : Event :=
      { id := id, name := payload.name, description := payload.description,
        date := payload.date, start_time := payload.start_time,
        location := payload.location, attendee_ids := [], ticket_ids := [],
        created_at := now, updated_at := none }
    (Except.ok event, { s1 with events := Store.insert s1.events id event })

/-- `update_event`. -/
def update_event (s : St) (id : Nat) (payload : EventPayload) (now : Nat) :
    Except Error Event × St :=
  match _get_event s id with
  | none => (Except.error (Error.NotFound s!"event id:{id} does not exist"), s)
  | some event =>
    let event1 : Event :=
      { event with
        name := payload.name
        description := payload.description
        date := payload.date
        start_time := payload.start_time
        location := payload.location
        updated_at := some now }
    (Except.ok event1, { s with events := Store.insert s.events id event1 })

/-- `delete_event`. -/
def delete_event (s : St) (id : Nat) : Except Error String × St :=
  match _get_event s id with
  | none => (Except.error (Error.NotFound s!"event id:{id} does not exist"), s)
  | some _ =>
    (Except.ok s!"event id: {id} deleted", { s with events := Store.remove s.events id })

/-- `get_user`. -/
def get_user (s : St) (id : Nat) : Except Error User :=
  match _get_user s id with
  | some user => Except.ok user
  | none => Except.error (Error.NotFound s!"user id:{id} does not exist")

/-- `create_user`. -/
def create_user (s : St) (payload : UserPayload) (now : Nat) (allocOk : Bool) :
    Except Error User × St :=
  match increment_id_counter s allocOk with
  | (Except.error e, s1) => (Except.error e, s1)
  | (Except.ok id, s1) =>
    let user : User :=
      { id := id, name := payload.name, email := payload.email,
        password := payload.password, event_ids := [], ticket_ids := [],
        created_at := now, updated_at := none }
    (Except.ok user, { s1 with users := Store.insert s1.users id user })

/-- `update_user`. -/
def update_user (s : St) (id : Nat) (payload : UserPayload) (now : Nat) :
    Except Error User × St :=
  match _get_user s id with
  | none => (Except.error (Error.NotFound s!"user id:{id} does not exist"), s)
  | some user =>
    let user1 : User :=
      { user with
        name := payload.name
        email := payload.email
        password := payload.password
        updated_at := some now }
    (Except.ok user1, { s with users := Store.insert s.users id user1 })

/-- `delete_user`. -/
def delete_user (s : St) (id : Nat) : Except Error String × St :=
  match _get_user s id with
  | none => (Except.error (Error.NotFound s!"user id:{id} does not exist"), s)
  | some _ =>
    (Except.ok s!"user id: {id} deleted", { s with users := Store.remove s.users id })

/-- `get_ticket`. -/
def get_ticket (s : St) (id : Nat) : Except Error Ticket :=
  match _get_ticket s id with
  | some ticket => Except.ok ticket
  | none => Except.error (Error.NotFound s!"ticket id:{id} does not exist")

/-- `add_event_attendee`: loads the event; if `user_id` is absent from
`attendee_ids`, appends it, refreshes `updated_at` and persists; otherwise
leaves the store untouched. -/
def add_event_attendee (s : St) (event_id user_id : Nat) (now : Nat) :
    Except Error Unit × St :=
  match _get_event s event_id with
  | none => (Except.error (Error.NotFound s!"event id:{event_id} does not exist"), s)
  | some event =>
    if event.attendee_ids.contains user_id then (Except.ok (), s)
    else
      let event1 : Event :=
        { event with
          attendee_ids := event.attendee_ids ++ [user_id]
          updated_at := some now }
      (Except.ok (), { s with events := Store.insert s.events event_id event1 })

/-- `add_event_ticket`: same shape as `add_event_attendee`, on `ticket_ids`. -/
def add_event_ticket (s : St) (event_id ticket_id : Nat) (now : Nat) :
    Except Error Unit × St :=
  match _get_event s event_id with
  | none => (Except.error (Error.NotFound s!"event id:{event_id} does not exist"), s)
  | some event =>
    if event.ticket_ids.contains ticket_id then (Except.ok (), s)
    else
      let event1 : Event :=
        { event with
          ticket_ids := event.ticket_ids ++ [ticket_id]
          updated_at := some now }
      (Except.ok (), { s with events := Store.insert s.events event_id event1 })

/-- `add_user_ticket`: same shape, on the user's `ticket_ids`. -/
def add_user_ticket (s : St) (user_id ticket_id : Nat) (now : Nat) :
    Except Error Unit × St :=
  match _get_user s user_id with
  | none => (Except.error (Error.NotFound s!"user id:{user_id} does not exist"), s)
  | some user =>
    if user.ticket_ids.contains ticket_id then (Except.ok (), s)
    else
      let user1 : User :=
        { user with
          ticket_ids := user.ticket_ids ++ [ticket_id]
          updated_at := some now }
      (Except.ok (), { s with users := Store.insert s.users user_id user1 })

/-- `remove_user_ticket`: retain-filters `ticket_id` out of the user's
`ticket_ids`, refreshes `updated_at` and persists unconditionally. -/
def remove_user_ticket (s : St) (user_id ticket_id : Nat) (now : Nat) :
    Except Error Unit × St :=
  match _get_user s user_id with
  | none => (Except.error (Error.NotFound s!"user id:{user_id} does not exist"), s)
  | some user =>
    let user1 : User :=
      { user with
        ticket_ids := user.ticket_ids.filter (fun i => i != ticket_id)
        updated_at := some now }
    (Except.ok (), { s with users := Store.insert s.users user_id user1 })

/-- `remove_event_ticket`: symmetric to `remove_user_ticket`. -/
def remove_event_ticket (s : St) (event_id ticket_id : Nat) (now : Nat) :
    Except Error Unit × St :=
  match _get_event s event_id with
  | none => (Except.error (Error.NotFound s!"event id:{event_id} does not exist"), s)
  | some event =>
    let event1 : Event :=
      { event with
        ticket_ids := event.ticket_ids.filter (fun i => i != ticket_id)
        updated_at := some now }
    (Except.ok (), { s with events := Store.insert s.events event_id event1 })

/-- `create_ticket`: allocate an id, persist the ticket, then
`add_event_attendee`, `add_user_ticket`, `add_event_ticket` in that order.
A failed allocation maps to an `AssociationError` carrying
`Ticket::default()`; a failed relationship step maps to an
`AssociationError` carrying the already-persisted ticket.  No rollback. -/
def create_ticket (s : St) (payload : TicketPayload) (now : Nat) (allocOk : Bool) :
    Except AssociationError Ticket × St :=
  match increment_id_counter s allocOk with
  | (Except.error e, s1) =>
    (Except.error (AssociationError.Err
      ("Failed to increment ID counter: " ++ e.msg) Ticket.deflt), s1)
  | (Except.ok id, s1) =>
    let eid := payload.event_id
    let uid := payload.user_id
    let ticket : Ticket :=
      { id := id, event_id := eid, user_id := uid,
        created_at := now, updated_at := none }
    let s2 : St := { s1 with tickets := Store.insert s1.tickets id ticket }
    match add_event_attendee s2 eid uid now with
    | (Except.error _, s3) =>
      (Except.error (AssociationError.Err
        s!"Could not add attendee to event id:{eid} " ticket), s3)
    | (Except.ok _, s3) =>
      match add_user_ticket s3 uid id now with
      | (Except.error _, s4) =>
        (Except.error (AssociationError.Err
          s!"Could not add ticket id:{id} to user id:{uid} " ticket), s4)
      | (Except.ok _, s4) =>
        match add_event_ticket s4 eid id now with
        | (Except.error _, s5) =>
          (Except.error (AssociationError.Err
            s!"Could not add ticket id:{id} to event id:{eid} " ticket), s5)
        | (Except.ok _, s5) => (Except.ok ticket, s5)

/-- The `if payload.user_id != ticket.user_id { ... }` block of
`update_ticket`: remove the ticket from the old user, add it to the new
user, and carry the updated `user_id` field. -/
def move_user_step (s : St) (ticket : Ticket) (new_uid : Nat) (now : Nat) :
    Except Error Ticket × St :=
  if new_uid != ticket.user_id then
    match remove_user_ticket s ticket.user_id ticket.id now with
    | (Except.error e, s1) => (Except.error e, s1)
    | (Except.ok _, s1) =>
      match add_user_ticket s1 new_uid ticket.id now with
      | (Except.error e, s2) => (Except.error e, s2)
      | (Except.ok _, s2) =>
        (Except.ok { ticket with user_id := new_uid }, s2)
  else (Except.ok ticket, s)

/-- The `if payload.event_id != ticket.event_id { ... }` block of
`update_ticket`: symmetric to `move_user_step`. -/
def move_event_step (s : St) (ticket : Ticket) (new_eid : Nat) (now : Nat) :
    Except Error Ticket × St :=
  if new_eid != ticket.event_id then
    match remove_event_ticket s ticket.event_id ticket.id now with
    | (Except.error e, s1) => (Except.error e, s1)
    | (Except.ok _, s1) =>
      match add_event_ticket s1 new_eid ticket.id now with
      | (Except.error e, s2) => (Except.error e, s2)
      | (Except.ok _, s2) =>
        (Except.ok { ticket with event_id := new_eid }, s2)
  else (Except.ok ticket, s)

/-- `update_ticket`: if `user_id` changed, move the ticket between the two
users' lists; if `event_id` changed, move it between the two events'
lists; then refresh `updated_at` and persist the ticket.  Errors
propagate with no compensating undo. -/
def update_ticket (s : St) (id : Nat) (payload : TicketPayload) (now : Nat) :
    Except Error Ticket × St :=
  match _get_ticket s id with
  | none => (Except.error (Error.NotFound s!"ticket id:{id} does not exist"), s)
  | some ticket =>
    match move_user_step s ticket payload.user_id now with
    | (Except.error e, s1) => (Except.error e, s1)
    | (Except.ok ticket1, s1) =>
      match move_event_step s1 ticket1 payload.event_id now with
      | (Except.error e, s2) => (Except.error e, s2)
      | (Except.ok ticket2, s2) =>
        let ticket3 : Ticket := { ticket2 with updated_at := some now }
        (Except.ok ticket3, { s2 with tickets := Store.insert s2.tickets id ticket3 })

/-- `delete_ticket`: resolve the ticket, `remove_user_ticket`,
`remove_event_ticket`, then remove the ticket record.  If either removal
fails the ticket record is left in place. -/
def delete_ticket (s : St) (id : Nat) (now : Nat) : Except Error String × St :=
  match _get_ticket s id with
  | none => (Except.error (Error.NotFound s!"ticket id:{id} does not exist"), s)
  | some ticket =>
    match remove_user_ticket s ticket.user_id ticket.id now with
    | (Except.error e, s1) => (Except.error e, s1)
    | (Except.ok _, s1) =>
      match remove_event_ticket s1 ticket.event_id ticket.id now with
      | (Except.error e, s2) => (Except.error e, s2)
      | (Except.ok _, s2) =>
        (Except.ok s!"ticket id: {id} deleted",
         { s2 with tickets := Store.remove s2.tickets id })

/-- The `collect` over `Result` in `get_user_tickets` / `get_event_tickets`:
resolve every id, failing at the first id that does not resolve. -/
def resolveTickets (s : St) : List Nat → Except Error (List Ticket)
  | [] => Except.ok []
  | tid :: rest =>
    match _get_ticket s tid with
    | none => Except.error (Error.NotFound s!"ticket id:{tid} does not exist")
    | some t =>
      match resolveTickets s rest with
      | Except.error e => Except.error e
      | Except.ok ts => Except.ok (t :: ts)

/-- The `collect` over `Result` in `get_event_attendees`. -/
def resolveUsers (s : St) : List Nat → Except Error (List User)
  | [] => Except.ok []
  | uid :: rest =>
    match _get_user s uid with
    | none => Except.error (Error.NotFound s!"user id:{uid} does not exist")
    | some u =>
      match resolveUsers s rest with
      | Except.error e => Except.error e
      | Except.ok us => Except.ok (u :: us)

/-- `get_event_attendees`. -/
def get_event_attendees (s : St) (id : Nat) : Except Error (List User) :=
  match _get_event s id with
  | none => Except.error (Error.NotFound s!"event id:{id} does not exist")
  | some event => resolveUsers s event.attendee_ids

/-- `get_user_tickets`. -/
def get_user_tickets (s : St) (id : Nat) : Except Error (List Ticket) :=
  match _get_user s id with
  | none => Except.error (Error.NotFound s!"user id:{id} does not exist")
  | some user => resolveTickets s user.ticket_ids

/-- `get_event_tickets`. -/
def get_event_tickets (s : St) (id : Nat) : Except Error (List Ticket) :=
  match _get_event s id with
  | none => Except.error (Error.NotFound s!"event id:{id} does not exist")
  | some event => resolveTickets s event.ticket_ids

/-- A store is sorted when its keys strictly increase along the list. -/
def storeSorted {α : Type} (l : Store α) : Prop :=
  List.Pairwise (fun p q => p.1 < q.1) l

/-- One canister call, with its environment inputs (`now` for `time()`,
`allocOk` for the durability of the counter commit). -/
inductive Op where
  | opCreateEvent (p : EventPayload) (now : Nat) (allocOk : Bool)
  | opUpdateEvent (id : Nat) (p : EventPayload) (now : Nat)
  | opDeleteEvent (id : Nat)
  | opCreateUser (p : UserPayload) (now : Nat) (allocOk : Bool)
  | opUpdateUser (id : Nat) (p : UserPayload) (now : Nat)
  | opDeleteUser (id : Nat)
  | opCreateTicket (p : TicketPayload) (now : Nat) (allocOk : Bool)
  | opUpdateTicket (id : Nat) (p : TicketPayload) (now : Nat)
  | opDeleteTicket (id : Nat) (now : Nat)
deriving DecidableEq, Repr

/-- The state after one canister call (queries do not change state). -/
def step (s : St) (op : Op) : St :=
  match op with
  | .opCreateEvent p now aok => (create_event s p now aok).2
  | .opUpdateEvent id p now => (update_event s id p now).2
  | .opDeleteEvent id => (delete_event s id).2
  | .opCreateUser p now aok => (create_user s p now aok).2
  | .opUpdateUser id p now => (update_user s id p now).2
  | .opDeleteUser id => (delete_user s id).2
  | .opCreateTicket p now aok => (create_ticket s p now aok).2
  | .opUpdateTicket id p now => (update_ticket s id p now).2
  | .opDeleteTicket id now => (delete_ticket s id now).2

/-- Run a sequence of calls. -/
def execOps (s : St) (ops : List Op) : St := ops.foldl step s

/-- States the canister can be in: reachable from installation by some
sequence of calls. -/
def Reachable (s : St) : Prop := ∃ ops, execOps initState ops = s

/-- The ids handed out to callers by the op (nonempty only for a
successful create). -/
def opIssuedIds (s : St) (op : Op) : List Nat :=
  match op with
  | .opCreateEvent p now aok =>
    match (create_event s p now aok).1 with
    | Except.ok e => [e.id]
    | Except.error _ => []
  | .opCreateUser p now aok =>
    match (create_user s p now aok).1 with
    | Except.ok u => [u.id]
    | Except.error _ => []
  | .opCreateTicket p now aok =>
    match (create_ticket s p now aok).1 with
    | Except.ok t => [t.id]
    | Except.error _ => []
  | _ => []

/-- All ids issued along a trace, in order. -/
def traceIssued (s : St) : List Op → List Nat
  | [] => []
  | op :: rest => opIssuedIds s op ++ traceIssued (step s op) rest

/-- A stored event pair is well formed: its `id` field equals its key and
its relationship lists hold no duplicates. -/
def eventRecOK (p : Nat × Event) : Prop :=
  p.2.id = p.1 ∧ p.2.attendee_ids.Nodup ∧ p.2.ticket_ids.Nodup

/-- A stored user pair is well formed. -/
def userRecOK (p : Nat × User) : Prop := p.2.id = p.1 ∧ p.2.ticket_ids.Nodup

/-- A stored ticket pair is well formed. -/
def ticketRecOK (p : Nat × Ticket) : Prop := p.2.id = p.1

/-- The state invariant: all three stores are sorted by key and every
stored record is well formed. -/
def StInv (s : St) : Prop :=
  (storeSorted s.events ∧ ∀ p ∈ s.events, eventRecOK p) ∧
  (storeSorted s.users ∧ ∀ p ∈ s.users, userRecOK p) ∧
  (storeSorted s.tickets ∧ ∀ p ∈ s.tickets, ticketRecOK p)

/-- Scenario event payload. -/
def pEW : EventPayload :=
  { name := "E", description := "d", date := "2024-05-01", start_time := "10",
    location := "loc" }

/-- Scenario user payload. -/
def pUW : UserPayload :=
  { name := "alice", email := "alice@x.com", password := "pw" }

/-- The scenario event record after ticket creation. -/
def eW : Event :=
  { id := 1, name := "E", description := "d", date := "2024-05-01", start_time := "10",
    location := "loc", attendee_ids := [2], ticket_ids := [3], created_at := 100,
    updated_at := some 102 }

/-- The scenario user record after ticket creation. -/
def uW : User :=
  { id := 2, name := "alice", email := "alice@x.com", password := "pw",
    event_ids := [], ticket_ids := [3], created_at := 101, updated_at := some 102 }

/-- The scenario ticket record. -/
def tW : Ticket :=
  { id := 3, event_id := 1, user_id := 2, created_at := 102, updated_at := none }

/-- The scenario state: event 1, user 2, ticket 3, fully linked. -/
def sW : St := { counter := 3, events := [(1, eW)], users := [(2, uW)], tickets := [(3, tW)] }

/-- The calls that produce the scenario state. -/
def scenarioOps : List Op :=
  [Op.opCreateEvent pEW 100 true, Op.opCreateUser pUW 101 true,
   Op.opCreateTicket ⟨1, 2⟩ 102 true]

/-- A second user, for reassignment witnesses. -/
def uW4 : User :=
  { id := 4, name := "bob", email := "b@x.com", password := "pw",
    event_ids := [], ticket_ids := [], created_at := 103, updated_at := none }

/-- Scenario state plus a second user. -/
def sW2 : St :=
  { counter := 4, events := [(1, eW)], users := [(2, uW), (4, uW4)], tickets := [(3, tW)] }

/-- Scenario state whose user record was deleted (dangling ticket owner). -/
def sW3 : St := { counter := 3, events := [(1, eW)], users := [], tickets := [(3, tW)] }

/-- The association error of the witness scenario. -/
def aeW : AssociationError :=
  AssociationError.Err "Could not add attendee to event id:1 "
    { id := 1, event_id := 1, user_id := 2, created_at := 5, updated_at := none }

/-! ### Store lemmas -/

/-- Unfolding lemma for `Store.get` on a cons cell. -/
theorem Store.get_cons {α : Type} (k : Nat) (w : α) (rest : Store α) (j : Nat) :
    Store.get ((k, w) :: rest) j = if k = j then some w else Store.get rest j := rfl

/-- `insert` in front of a larger key prepends. -/
theorem Store.insert_cons_lt {α : Type} {id k : Nat} (w : α) (rest : Store α) (v : α)
    (h : id < k) : Store.insert ((k, w) :: rest) id v = (id, v) :: (k, w) :: rest := by
  simp [Store.insert, h]

/-- `insert` at the head key replaces the head. -/
theorem Store.insert_cons_eq {α : Type} {id k : Nat} (w : α) (rest : Store α) (v : α)
    (h : id = k) : Store.insert ((k, w) :: rest) id v = (id, v) :: rest := by
  have h1 : ¬ id < k := by omega
  simp [Store.insert, h1, h]

/-- `insert` past a smaller key recurses. -/
theorem Store.insert_cons_gt {α : Type} {id k : Nat} (w : α) (rest : Store α) (v : α)
    (h : k < id) : Store.insert ((k, w) :: rest) id v = (k, w) :: Store.insert rest id v := by
  have h1 : ¬ id < k := by omega
  have h2 : ¬ id = k := by omega
  simp [Store.insert, h1, h2]

/-- `get` after `insert`: the inserted key reads back the inserted value,
every other key is unaffected. -/
theorem Store.get_insert {α : Type} (l : Store α) (id : Nat) (v : α) (j : Nat) :
    Store.get (Store.insert l id v) j = if j = id then some v else Store.get l j := by
  induction l with
  | nil =>
    show (if id = j then some v else none) = if j = id then some v else none
    by_cases h : j = id
    · rw [if_pos h.symm, if_pos h]
    · rw [if_neg (fun hh => h hh.symm), if_neg h]
  | cons p rest ih =>
    obtain ⟨k, w⟩ := p
    rcases Nat.lt_trichotomy id k with hlt | heq | hgt
    · rw [Store.insert_cons_lt w rest v hlt, Store.get_cons]
      by_cases hj : j = id
      · rw [if_pos hj.symm, if_pos hj]
      · rw [if_neg (fun hh => hj hh.symm), if_neg hj]
    · rw [Store.insert_cons_eq w rest v heq, Store.get_cons, Store.get_cons]
      by_cases hj : j = id
      · rw [if_pos hj.symm, if_pos hj]
      · have hkj : ¬ k = j := fun hh => hj ((heq.trans hh).symm)
        rw [if_neg (fun hh => hj hh.symm), if_neg hj, if_neg hkj]
    · rw [Store.insert_cons_gt w rest v hgt, Store.get_cons, Store.get_cons]
      by_cases hkj : k = j
      · have hji : ¬ j = id := by omega
        rw [if_pos hkj, if_neg hji, if_pos hkj]
      · rw [if_neg hkj, ih, if_neg hkj]

/-- `remove` drops pairs whose key is the removed id and keeps the rest. -/
theorem Store.remove_cons {α : Type} (k : Nat) (w : α) (rest : Store α) (id : Nat) :
    Store.remove ((k, w) :: rest) id =
      if k = id then Store.remove rest id else (k, w) :: Store.remove rest id := by
  by_cases hk : k = id
  · rw [if_pos hk]
    simp [Store.remove, List.filter_cons, hk]
  · rw [if_neg hk]
    simp [Store.remove, List.filter_cons, hk]

/-- `get` after `remove`: the removed key reads `none`, every other key is
unaffected. -/
theorem Store.get_remove {α : Type} (l : Store α) (id : Nat) (j : Nat) :
    Store.get (Store.remove l id) j = if j = id then none else Store.get l j := by
  induction l with
  | nil =>
    show (none : Option α) = if j = id then none else none
    by_cases h : j = id
    · rw [if_pos h]
    · rw [if_neg h]
  | cons p rest ih =>
    obtain ⟨k, w⟩ := p
    rw [Store.remove_cons]
    by_cases hk : k = id
    · rw [if_pos hk, ih, Store.get_cons]
      by_cases hj : j = id
      · rw [if_pos hj, if_pos hj]
      · have hkj : ¬ k = j := fun hh => hj ((hh.symm).trans hk)
        rw [if_neg hj, if_neg hj, if_neg hkj]
    · rw [if_neg hk, Store.get_cons, Store.get_cons]
      by_cases hkj : k = j
      · have hji : ¬ j = id := fun hh => hk (hkj.trans hh)
        rw [if_pos hkj, if_neg hji, if_pos hkj]
      · rw [if_neg hkj, ih, if_neg hkj]

/-- Every member of `insert l id v` is the inserted pair or a member of `l`. -/
theorem Store.mem_insert {α : Type} {l : Store α} {id : Nat} {v : α} {p : Nat × α}
    (h : p ∈ Store.insert l id v) : p = (id, v) ∨ p ∈ l := by
  induction l with
  | nil =>
    rw [show Store.insert ([] : Store α) id v = [(id, v)] from rfl] at h
    rcases List.mem_cons.mp h with h | h
    · exact Or.inl h
    · cases h
  | cons q rest ih =>
    obtain ⟨k, w⟩ := q
    rcases Nat.lt_trichotomy id k with hlt | heq | hgt
    · rw [Store.insert_cons_lt w rest v hlt] at h
      rcases List.mem_cons.mp h with h | h
      · exact Or.inl h
      · exact Or.inr h
    · rw [Store.insert_cons_eq w rest v heq] at h
      rcases List.mem_cons.mp h with h | h
      · exact Or.inl h
      · exact Or.inr (List.mem_cons_of_mem _ h)
    · rw [Store.insert_cons_gt w rest v hgt] at h
      rcases List.mem_cons.mp h with h | h
      · exact Or.inr (List.mem_cons.mpr (Or.inl h))
      · rcases ih h with h' | h'
        · exact Or.inl h'
        · exact Or.inr (List.mem_cons_of_mem _ h')

/-- `insert` keeps the key list strictly sorted. -/
theorem Store.insert_sorted {α : Type} {l : Store α} (id : Nat) (v : α)
    (h : storeSorted l) : storeSorted (Store.insert l id v) := by
  induction l with
  | nil => exact List.pairwise_singleton _ _
  | cons q rest ih =>
    obtain ⟨k, w⟩ := q
    rw [storeSorted, List.pairwise_cons] at h
    obtain ⟨hk, hrest⟩ := h
    rcases Nat.lt_trichotomy id k with hlt | heq | hgt
    · rw [Store.insert_cons_lt w rest v hlt]
      refine List.pairwise_cons.mpr ⟨?_, List.pairwise_cons.mpr ⟨hk, hrest⟩⟩
      intro q hq
      rcases List.mem_cons.mp hq with h' | h'
      · rw [h']
        exact hlt
      · exact Nat.lt_trans hlt (hk q h')
    · rw [Store.insert_cons_eq w rest v heq]
      refine List.pairwise_cons.mpr ⟨?_, hrest⟩
      intro q hq
      have := hk q hq
      show id < q.1
      omega
    · rw [Store.insert_cons_gt w rest v hgt]
      refine List.pairwise_cons.mpr ⟨?_, ih hrest⟩
      intro q hq
      rcases Store.mem_insert hq with h' | h'
      · rw [h']
        exact hgt
      · exact hk q h'

/-- `remove` keeps the key list strictly sorted. -/
theorem Store.remove_sorted {α : Type} {l : Store α} (id : Nat)
    (h : storeSorted l) : storeSorted (Store.remove l id) :=
  List.Pairwise.filter _ h

/-- In a sorted store a stored pair is read back by `get` at its key. -/
theorem Store.get_of_mem {α : Type} {l : Store α} {k : Nat} {v : α}
    (hs : storeSorted l) (h : (k, v) ∈ l) : Store.get l k = some v := by
  induction l with
  | nil => cases h
  | cons q rest ih =>
    obtain ⟨k0, w⟩ := q
    rw [storeSorted, List.pairwise_cons] at hs
    rcases List.mem_cons.mp h with h' | h'
    · injection h' with h1 h2
      rw [Store.get_cons, if_pos h1.symm, h2]
    · have hk0 : k0 < k := hs.1 (k, v) h'
      rw [Store.get_cons, if_neg (by omega)]
      exact ih hs.2 h'

/-- `get` only returns stored pairs. -/
theorem Store.mem_of_get {α : Type} {l : Store α} {k : Nat} {v : α}
    (h : Store.get l k = some v) : (k, v) ∈ l := by
  induction l with
  | nil => cases h
  | cons q rest ih =>
    obtain ⟨k0, w⟩ := q
    rw [Store.get_cons] at h
    by_cases hk : k0 = k
    · rw [if_pos hk] at h
      injection h with h1
      exact List.mem_cons.mpr (Or.inl (by rw [hk, h1]))
    · rw [if_neg hk] at h
      exact List.mem_cons_of_mem _ (ih h)

/-! ### Frame and behavior lemmas for the relationship maintainers -/

/-- `add_event_attendee` never touches the user store. -/
theorem add_event_attendee_users (s : St) (eid uid now : Nat) :
    ((add_event_attendee s eid uid now).2).users = s.users := by
  unfold add_event_attendee
  cases _get_event s eid
  · rfl
  · dsimp only
    split <;> rfl

/-- `add_event_attendee` never touches the ticket store. -/
theorem add_event_attendee_tickets (s : St) (eid uid now : Nat) :
    ((add_event_attendee s eid uid now).2).tickets = s.tickets := by
  unfold add_event_attendee
  cases _get_event s eid
  · rfl
  · dsimp only
    split <;> rfl

/-- `add_event_attendee` never touches the id counter. -/
theorem add_event_attendee_counter (s : St) (eid uid now : Nat) :
    ((add_event_attendee s eid uid now).2).counter = s.counter := by
  unfold add_event_attendee
  cases _get_event s eid
  · rfl
  · dsimp only
    split <;> rfl

/-- `add_event_ticket` never touches the user store. -/
theorem add_event_ticket_users (s : St) (eid tid now : Nat) :
    ((add_event_ticket s eid tid now).2).users = s.users := by
  unfold add_event_ticket
  cases _get_event s eid
  · rfl
  · dsimp only
    split <;> rfl

/-- `add_event_ticket` never touches the ticket store. -/
theorem add_event_ticket_tickets (s : St) (eid tid now : Nat) :
    ((add_event_ticket s eid tid now).2).tickets = s.tickets := by
  unfold add_event_ticket
  cases _get_event s eid
  · rfl
  · dsimp only
    split <;> rfl

/-- `add_event_ticket` never touches the id counter. -/
theorem add_event_ticket_counter (s : St) (eid tid now : Nat) :
    ((add_event_ticket s eid tid now).2).counter = s.counter := by
  unfold add_event_ticket
  cases _get_event s eid
  · rfl
  · dsimp only
    split <;> rfl

/-- `add_user_ticket` never touches the event store. -/
theorem add_user_ticket_events (s : St) (uid tid now : Nat) :
    ((add_user_ticket s uid tid now).2).events = s.events := by
  unfold add_user_ticket
  cases _get_user s uid
  · rfl
  · dsimp only
    split <;> rfl

/-- `add_user_ticket` never touches the ticket store. -/
theorem add_user_ticket_tickets (s : St) (uid tid now : Nat) :
    ((add_user_ticket s uid tid now).2).tickets = s.tickets := by
  unfold add_user_ticket
  cases _get_user s uid
  · rfl
  · dsimp only
    split <;> rfl

/-- `add_user_ticket` never touches the id counter. -/
theorem add_user_ticket_counter (s : St) (uid tid now : Nat) :
    ((add_user_ticket s uid tid now).2).counter = s.counter := by
  unfold add_user_ticket
  cases _get_user s uid
  · rfl
  · dsimp only
    split <;> rfl

/-- `remove_user_ticket` never touches the event store. -/
theorem remove_user_ticket_events (s : St) (uid tid now : Nat) :
    ((remove_user_ticket s uid tid now).2).events = s.events := by
  unfold remove_user_ticket
  cases _get_user s uid <;> rfl

/-- `remove_user_ticket` never touches the ticket store. -/
theorem remove_user_ticket_tickets (s : St) (uid tid now : Nat) :
    ((remove_user_ticket s uid tid now).2).tickets = s.tickets := by
  unfold remove_user_ticket
  cases _get_user s uid <;> rfl

/-- `remove_user_ticket` never touches the id counter. -/
theorem remove_user_ticket_counter (s : St) (uid tid now : Nat) :
    ((remove_user_ticket s uid tid now).2).counter = s.counter := by
  unfold remove_user_ticket
  cases _get_user s uid <;> rfl

/-- `remove_event_ticket` never touches the user store. -/
theorem remove_event_ticket_users (s : St) (eid tid now : Nat) :
    ((remove_event_ticket s eid tid now).2).users = s.users := by
  unfold remove_event_ticket
  cases _get_event s eid <;> rfl

/-- `remove_event_ticket` never touches the ticket store. -/
theorem remove_event_ticket_tickets (s : St) (eid tid now : Nat) :
    ((remove_event_ticket s eid tid now).2).tickets = s.tickets := by
  unfold remove_event_ticket
  cases _get_event s eid <;> rfl

/-- `remove_event_ticket` never touches the id counter. -/
theorem remove_event_ticket_counter (s : St) (eid tid now : Nat) :
    ((remove_event_ticket s eid tid now).2).counter = s.counter := by
  unfold remove_event_ticket
  cases _get_event s eid <;> rfl

/-- `add_event_attendee` on a missing event: `NotFound`, state unchanged. -/
theorem add_event_attendee_none (s : St) (eid uid now : Nat)
    (h : _get_event s eid = none) :
    add_event_attendee s eid uid now =
      (Except.error (Error.NotFound s!"event id:{eid} does not exist"), s) := by
  unfold add_event_attendee
  rw [h]

/-- `add_event_ticket` on a missing event: `NotFound`, state unchanged. -/
theorem add_event_ticket_none (s : St) (eid tid now : Nat)
    (h : _get_event s eid = none) :
    add_event_ticket s eid tid now =
      (Except.error (Error.NotFound s!"event id:{eid} does not exist"), s) := by
  unfold add_event_ticket
  rw [h]

/-- `add_user_ticket` on a missing user: `NotFound`, state unchanged. -/
theorem add_user_ticket_none (s : St) (uid tid now : Nat)
    (h : _get_user s uid = none) :
    add_user_ticket s uid tid now =
      (Except.error (Error.NotFound s!"user id:{uid} does not exist"), s) := by
  unfold add_user_ticket
  rw [h]

/-- `remove_user_ticket` on a missing user: `NotFound`, state unchanged. -/
theorem remove_user_ticket_none (s : St) (uid tid now : Nat)
    (h : _get_user s uid = none) :
    remove_user_ticket s uid tid now =
      (Except.error (Error.NotFound s!"user id:{uid} does not exist"), s) := by
  unfold remove_user_ticket
  rw [h]

/-- `remove_event_ticket` on a missing event: `NotFound`, state unchanged. -/
theorem remove_event_ticket_none (s : St) (eid tid now : Nat)
    (h : _get_event s eid = none) :
    remove_event_ticket s eid tid now =
      (Except.error (Error.NotFound s!"event id:{eid} does not exist"), s) := by
  unfold remove_event_ticket
  rw [h]

/-- `add_event_attendee` on an existing event succeeds; afterwards the
event holds the attendee, its `ticket_ids` are untouched, and every
previously present attendee is still present. -/
theorem add_event_attendee_spec (s : St) (eid uid now : Nat) (e : Event)
    (h : _get_event s eid = some e) :
    (add_event_attendee s eid uid now).1 = Except.ok () ∧
    ∃ e', _get_event (add_event_attendee s eid uid now).2 eid = some e' ∧
      uid ∈ e'.attendee_ids ∧ e'.ticket_ids = e.ticket_ids ∧ e'.id = e.id ∧
      ∀ x ∈ e.attendee_ids, x ∈ e'.attendee_ids := by
  unfold add_event_attendee
  rw [h]
  dsimp only
  by_cases hc : e.attendee_ids.contains uid
  · rw [if_pos hc]
    exact ⟨rfl, e, h, List.mem_of_elem_eq_true hc, rfl, rfl, fun x hx => hx⟩
  · rw [if_neg hc]
    refine ⟨rfl, { e with attendee_ids := e.attendee_ids ++ [uid], updated_at := some now },
      ?_, by simp, rfl, rfl, fun x hx => by simp [hx]⟩
    show Store.get (Store.insert s.events eid _) eid = _
    rw [Store.get_insert, if_pos rfl]

/-- `add_event_ticket` on an existing event succeeds; afterwards the event
holds the ticket id and its `attendee_ids` are untouched. -/
theorem add_event_ticket_spec (s : St) (eid tid now : Nat) (e : Event)
    (h : _get_event s eid = some e) :
    (add_event_ticket s eid tid now).1 = Except.ok () ∧
    ∃ e', _get_event (add_event_ticket s eid tid now).2 eid = some e' ∧
      tid ∈ e'.ticket_ids ∧ e'.attendee_ids = e.attendee_ids ∧ e'.id = e.id := by
  unfold add_event_ticket
  rw [h]
  dsimp only
  by_cases hc : e.ticket_ids.contains tid
  · rw [if_pos hc]
    exact ⟨rfl, e, h, List.mem_of_elem_eq_true hc, rfl, rfl⟩
  · rw [if_neg hc]
    refine ⟨rfl, { e with ticket_ids := e.ticket_ids ++ [tid], updated_at := some now },
      ?_, by simp, rfl, rfl⟩
    show Store.get (Store.insert s.events eid _) eid = _
    rw [Store.get_insert, if_pos rfl]

/-- `add_user_ticket` on an existing user succeeds; afterwards the user
holds the ticket id. -/
theorem add_user_ticket_spec (s : St) (uid tid now : Nat) (u : User)
    (h : _get_user s uid = some u) :
    (add_user_ticket s uid tid now).1 = Except.ok () ∧
    ∃ u', _get_user (add_user_ticket s uid tid now).2 uid = some u' ∧
      tid ∈ u'.ticket_ids ∧ u'.id = u.id := by
  unfold add_user_ticket
  rw [h]
  dsimp only
  by_cases hc : u.ticket_ids.contains tid
  · rw [if_pos hc]
    exact ⟨rfl, u, h, List.mem_of_elem_eq_true hc, rfl⟩
  · rw [if_neg hc]
    refine ⟨rfl, { u with ticket_ids := u.ticket_ids ++ [tid], updated_at := some now },
      ?_, by simp, rfl⟩
    show Store.get (Store.insert s.users uid _) uid = _
    rw [Store.get_insert, if_pos rfl]

/-- `add_user_ticket` leaves users other than the target untouched. -/
theorem add_user_ticket_get_ne (s : St) (uid tid now j : Nat) (hj : ¬ j = uid) :
    _get_user (add_user_ticket s uid tid now).2 j = _get_user s j := by
  unfold add_user_ticket
  cases _get_user s uid
  · rfl
  · dsimp only
    split
    · rfl
    · show Store.get (Store.insert s.users uid _) j = _
      rw [Store.get_insert, if_neg hj]
      rfl

/-- `add_event_attendee` leaves events other than the target untouched. -/
theorem add_event_attendee_get_ne (s : St) (eid uid now j : Nat) (hj : ¬ j = eid) :
    _get_event (add_event_attendee s eid uid now).2 j = _get_event s j := by
  unfold add_event_attendee
  cases _get_event s eid
  · rfl
  · dsimp only
    split
    · rfl
    · show Store.get (Store.insert s.events eid _) j = _
      rw [Store.get_insert, if_neg hj]
      rfl

/-- `add_event_ticket` leaves events other than the target untouched. -/
theorem add_event_ticket_get_ne (s : St) (eid tid now j : Nat) (hj : ¬ j = eid) :
    _get_event (add_event_ticket s eid tid now).2 j = _get_event s j := by
  unfold add_event_ticket
  cases _get_event s eid
  · rfl
  · dsimp only
    split
    · rfl
    · show Store.get (Store.insert s.events eid _) j = _
      rw [Store.get_insert, if_neg hj]
      rfl

/-- `remove_user_ticket` on an existing user: deterministic result shape. -/
theorem remove_user_ticket_spec (s : St) (uid tid now : Nat) (u : User)
    (h : _get_user s uid = some u) :
    remove_user_ticket s uid tid now = (Except.ok (),
      { s with users := Store.insert s.users uid { u with ticket_ids := u.ticket_ids.filter (fun i => i != tid), updated_at := some now } }) := by
  unfold remove_user_ticket
  rw [h]

/-- `remove_event_ticket` on an existing event: deterministic result shape. -/
theorem remove_event_ticket_spec (s : St) (eid tid now : Nat) (e : Event)
    (h : _get_event s eid = some e) :
    remove_event_ticket s eid tid now = (Except.ok (),
      { s with events := Store.insert s.events eid { e with ticket_ids := e.ticket_ids.filter (fun i => i != tid), updated_at := some now } }) := by
  unfold remove_event_ticket
  rw [h]

/-! ### Operation machinery: traces and reachability -/

/-- Second component of a pair equation. -/
theorem pair_snd {α β : Type} {x : α × β} {a : α} {b : β} (h : x = (a, b)) : x.2 = b := by
  rw [h]

/-! ### Counter behavior of every operation -/

/-- `update_event` never touches the id counter. -/
theorem update_event_counter (s : St) (id : Nat) (p : EventPayload) (now : Nat) :
    ((update_event s id p now).2).counter = s.counter := by
  unfold update_event
  cases _get_event s id <;> rfl

/-- `delete_event` never touches the id counter. -/
theorem delete_event_counter (s : St) (id : Nat) :
    ((delete_event s id).2).counter = s.counter := by
  unfold delete_event
  cases _get_event s id <;> rfl

/-- `update_user` never touches the id counter. -/
theorem update_user_counter (s : St) (id : Nat) (p : UserPayload) (now : Nat) :
    ((update_user s id p now).2).counter = s.counter := by
  unfold update_user
  cases _get_user s id <;> rfl

/-- `delete_user` never touches the id counter. -/
theorem delete_user_counter (s : St) (id : Nat) :
    ((delete_user s id).2).counter = s.counter := by
  unfold delete_user
  cases _get_user s id <;> rfl

/-- `create_event` advances the counter exactly when allocation succeeds. -/
theorem create_event_counter (s : St) (p : EventPayload) (now : Nat) (aok : Bool) :
    ((create_event s p now aok).2).counter = if aok then s.counter + 1 else s.counter := by
  cases aok <;> rfl

/-- `create_user` advances the counter exactly when allocation succeeds. -/
theorem create_user_counter (s : St) (p : UserPayload) (now : Nat) (aok : Bool) :
    ((create_user s p now aok).2).counter = if aok then s.counter + 1 else s.counter := by
  cases aok <;> rfl

/-- `create_ticket` advances the counter exactly when allocation succeeds,
whether or not a relationship step later fails. -/
theorem create_ticket_counter (s : St) (p : TicketPayload) (now : Nat) (aok : Bool) :
    ((create_ticket s p now aok).2).counter = if aok then s.counter + 1 else s.counter := by
  cases aok with
  | false => rfl
  | true =>
    rw [if_pos rfl]
    unfold create_ticket increment_id_counter
    dsimp only
    split
    next e3 s3 h3 =>
      rw [← pair_snd h3, add_event_attendee_counter]
    next u3 s3 h3 =>
      split
      next e4 s4 h4 =>
        rw [← pair_snd h4, add_user_ticket_counter, ← pair_snd h3,
          add_event_attendee_counter]
      next u4 s4 h4 =>
        split
        next e5 s5 h5 =>
          rw [← pair_snd h5, add_event_ticket_counter, ← pair_snd h4,
            add_user_ticket_counter, ← pair_snd h3, add_event_attendee_counter]
        next u5 s5 h5 =>
          rw [← pair_snd h5, add_event_ticket_counter, ← pair_snd h4,
            add_user_ticket_counter, ← pair_snd h3, add_event_attendee_counter]

/-- `move_user_step` never touches the id counter. -/
theorem move_user_step_counter (s : St) (t : Ticket) (uid now : Nat) :
    ((move_user_step s t uid now).2).counter = s.counter := by
  unfold move_user_step
  split
  · split
    next e1 s1 h1 => rw [← pair_snd h1, remove_user_ticket_counter]
    next u1 s1 h1 =>
      split
      next e2 s2 h2 =>
        rw [← pair_snd h2, add_user_ticket_counter, ← pair_snd h1,
          remove_user_ticket_counter]
      next u2 s2 h2 =>
        rw [← pair_snd h2, add_user_ticket_counter, ← pair_snd h1,
          remove_user_ticket_counter]
  · rfl

/-- `move_event_step` never touches the id counter. -/
theorem move_event_step_counter (s : St) (t : Ticket) (eid now : Nat) :
    ((move_event_step s t eid now).2).counter = s.counter := by
  unfold move_event_step
  split
  · split
    next e1 s1 h1 => rw [← pair_snd h1, remove_event_ticket_counter]
    next u1 s1 h1 =>
      split
      next e2 s2 h2 =>
        rw [← pair_snd h2, add_event_ticket_counter, ← pair_snd h1,
          remove_event_ticket_counter]
      next u2 s2 h2 =>
        rw [← pair_snd h2, add_event_ticket_counter, ← pair_snd h1,
          remove_event_ticket_counter]
  · rfl

/-- `update_ticket` never touches the id counter. -/
theorem update_ticket_counter (s : St) (id : Nat) (p : TicketPayload) (now : Nat) :
    ((update_ticket s id p now).2).counter = s.counter := by
  unfold update_ticket
  cases _get_ticket s id with
  | none => rfl
  | some t =>
    dsimp only
    split
    next e1 s1 h1 => rw [← pair_snd h1, move_user_step_counter]
    next t1 s1 h1 =>
      split
      next e2 s2 h2 =>
        rw [← pair_snd h2, move_event_step_counter, ← pair_snd h1,
          move_user_step_counter]
      next t2 s2 h2 =>
        show s2.counter = s.counter
        rw [← pair_snd h2, move_event_step_counter, ← pair_snd h1,
          move_user_step_counter]

/-- `delete_ticket` never touches the id counter. -/
theorem delete_ticket_counter (s : St) (id now : Nat) :
    ((delete_ticket s id now).2).counter = s.counter := by
  unfold delete_ticket
  cases _get_ticket s id with
  | none => rfl
  | some t =>
    dsimp only
    split
    next e1 s1 h1 => rw [← pair_snd h1, remove_user_ticket_counter]
    next u1 s1 h1 =>
      split
      next e2 s2 h2 =>
        rw [← pair_snd h2, remove_event_ticket_counter, ← pair_snd h1,
          remove_user_ticket_counter]
      next u2 s2 h2 =>
        show s2.counter = s.counter
        rw [← pair_snd h2, remove_event_ticket_counter, ← pair_snd h1,
          remove_user_ticket_counter]

/-- The fields of a successfully created ticket. -/
theorem create_ticket_ok_fields (s : St) (p : TicketPayload) (now : Nat) (aok : Bool)
    (t : Ticket) (h : (create_ticket s p now aok).1 = Except.ok t) :
    t = { id := s.counter + 1, event_id := p.event_id, user_id := p.user_id,
          created_at := now, updated_at := none } := by
  cases aok with
  | false => exact Except.noConfusion h
  | true =>
    unfold create_ticket increment_id_counter at h
    dsimp only at h
    split at h
    next e3 s3 h3 => exact Except.noConfusion h
    next u3 s3 h3 =>
      split at h
      next e4 s4 h4 => exact Except.noConfusion h
      next u4 s4 h4 =>
        split at h
        next e5 s5 h5 => exact Except.noConfusion h
        next u5 s5 h5 =>
          injection h with h'
          exact h'.symm

/-- The counter never decreases across any call. -/
theorem step_counter_le (s : St) (op : Op) : s.counter ≤ (step s op).counter := by
  cases op with
  | opCreateEvent p now aok =>
    show s.counter ≤ ((create_event s p now aok).2).counter
    rw [create_event_counter]
    split <;> omega
  | opUpdateEvent id p now =>
    show s.counter ≤ ((update_event s id p now).2).counter
    rw [update_event_counter]
  | opDeleteEvent id =>
    show s.counter ≤ ((delete_event s id).2).counter
    rw [delete_event_counter]
  | opCreateUser p now aok =>
    show s.counter ≤ ((create_user s p now aok).2).counter
    rw [create_user_counter]
    split <;> omega
  | opUpdateUser id p now =>
    show s.counter ≤ ((update_user s id p now).2).counter
    rw [update_user_counter]
  | opDeleteUser id =>
    show s.counter ≤ ((delete_user s id).2).counter
    rw [delete_user_counter]
  | opCreateTicket p now aok =>
    show s.counter ≤ ((create_ticket s p now aok).2).counter
    rw [create_ticket_counter]
    split <;> omega
  | opUpdateTicket id p now =>
    show s.counter ≤ ((update_ticket s id p now).2).counter
    rw [update_ticket_counter]
  | opDeleteTicket id now =>
    show s.counter ≤ ((delete_ticket s id now).2).counter
    rw [delete_ticket_counter]

/-- Any op either issues no id, or issues exactly the successor of the
incoming counter and leaves the counter there. -/
theorem opIssuedIds_spec (s : St) (op : Op) :
    opIssuedIds s op = [] ∨
      (opIssuedIds s op = [s.counter + 1] ∧ (step s op).counter = s.counter + 1) := by
  cases op with
  | opCreateEvent p now aok =>
    cases aok with
    | false => exact Or.inl rfl
    | true =>
      refine Or.inr ⟨rfl, ?_⟩
      show ((create_event s p now true).2).counter = s.counter + 1
      rw [create_event_counter, if_pos rfl]
  | opCreateUser p now aok =>
    cases aok with
    | false => exact Or.inl rfl
    | true =>
      refine Or.inr ⟨rfl, ?_⟩
      show ((create_user s p now true).2).counter = s.counter + 1
      rw [create_user_counter, if_pos rfl]
  | opCreateTicket p now aok =>
    cases aok with
    | false => exact Or.inl rfl
    | true =>
      rcases h : (create_ticket s p now true).1 with e | t
      · refine Or.inl ?_
        show (match (create_ticket s p now true).1 with
          | Except.ok t => [t.id] | Except.error _ => []) = []
        rw [h]
      · refine Or.inr ⟨?_, ?_⟩
        · show (match (create_ticket s p now true).1 with
            | Except.ok t => [t.id] | Except.error _ => []) = [s.counter + 1]
          rw [h, create_ticket_ok_fields s p now true t h]
        · show ((create_ticket s p now true).2).counter = s.counter + 1
          rw [create_ticket_counter, if_pos rfl]
  | opUpdateEvent id p now => exact Or.inl rfl
  | opDeleteEvent id => exact Or.inl rfl
  | opUpdateUser id p now => exact Or.inl rfl
  | opDeleteUser id => exact Or.inl rfl
  | opUpdateTicket id p now => exact Or.inl rfl
  | opDeleteTicket id now => exact Or.inl rfl

/-- Along any trace, every issued id exceeds the incoming counter, and the
issued ids are pairwise strictly increasing in order of issue. -/
theorem traceIssued_bounds (ops : List Op) : ∀ s : St,
    (∀ i ∈ traceIssued s ops, s.counter < i) ∧
    List.Pairwise (· < ·) (traceIssued s ops) := by
  induction ops with
  | nil =>
    intro s
    refine ⟨?_, List.Pairwise.nil⟩
    intro i hi
    cases hi
  | cons op rest ih =>
    intro s
    obtain ⟨ihb, ihp⟩ := ih (step s op)
    have hle := step_counter_le s op
    rcases opIssuedIds_spec s op with hiss | ⟨hiss, hcnt⟩
    · constructor
      · intro i hi
        rw [traceIssued, hiss, List.nil_append] at hi
        have := ihb i hi
        omega
      · rw [traceIssued, hiss, List.nil_append]
        exact ihp
    · constructor
      · intro i hi
        rw [traceIssued, hiss] at hi
        rcases List.mem_append.mp hi with hi | hi
        · rcases List.mem_singleton.mp hi with rfl
          omega
        · have := ihb i hi
          omega
      · rw [traceIssued, hiss]
        refine List.pairwise_append.mpr ⟨List.pairwise_singleton _ _, ihp, ?_⟩
        intro x hx y hy
        rcases List.mem_singleton.mp hx with rfl
        have := ihb y hy
        omega

/-! ### The store invariant and its preservation -/

/-- Inserting a well-formed record keeps the per-record facts. -/
theorem forall_mem_insert {α : Type} {l : Store α} {P : Nat × α → Prop} {id : Nat} {v : α}
    (hl : ∀ p ∈ l, P p) (hv : P (id, v)) : ∀ p ∈ Store.insert l id v, P p :=
  fun p hp => (Store.mem_insert hp).elim (fun h => h ▸ hv) (hl p)

/-- Removal keeps the per-record facts. -/
theorem forall_mem_remove {α : Type} {l : Store α} {P : Nat × α → Prop} {id : Nat}
    (hl : ∀ p ∈ l, P p) : ∀ p ∈ Store.remove l id, P p :=
  fun p hp => hl p (List.mem_of_mem_filter hp)

/-- A record fetched from a well-formed store is well formed. -/
theorem recOK_of_get {α : Type} {l : Store α} {P : Nat × α → Prop} {id : Nat} {v : α}
    (hl : ∀ p ∈ l, P p) (h : Store.get l id = some v) : P (id, v) :=
  hl _ (Store.mem_of_get h)

/-- Appending a missing element keeps a list duplicate free. -/
theorem nodup_append_singleton {l : List Nat} {a : Nat}
    (hl : l.Nodup) (ha : a ∉ l) : (l ++ [a]).Nodup := by
  rw [List.nodup_append]
  exact ⟨hl, List.nodup_singleton a, fun x hx hmem => ha (List.mem_singleton.mp hmem ▸ hx)⟩

/-- `add_event_attendee` preserves the invariant. -/
theorem add_event_attendee_stinv (s : St) (eid uid now : Nat) (h : StInv s) :
    StInv (add_event_attendee s eid uid now).2 := by
  unfold add_event_attendee
  cases hg : _get_event s eid with
  | none => exact h
  | some e =>
    dsimp only
    split
    · exact h
    next hc =>
      obtain ⟨⟨hse, hoe⟩, hu, ht⟩ := h
      have hok := recOK_of_get hoe hg
      have hmem : uid ∉ e.attendee_ids := fun hm => hc (List.elem_eq_true_of_mem hm)
      refine ⟨⟨Store.insert_sorted _ _ hse, forall_mem_insert hoe ?_⟩, hu, ht⟩
      exact ⟨hok.1, nodup_append_singleton hok.2.1 hmem, hok.2.2⟩

/-- `add_event_ticket` preserves the invariant. -/
theorem add_event_ticket_stinv (s : St) (eid tid now : Nat) (h : StInv s) :
    StInv (add_event_ticket s eid tid now).2 := by
  unfold add_event_ticket
  cases hg : _get_event s eid with
  | none => exact h
  | some e =>
    dsimp only
    split
    · exact h
    next hc =>
      obtain ⟨⟨hse, hoe⟩, hu, ht⟩ := h
      have hok := recOK_of_get hoe hg
      have hmem : tid ∉ e.ticket_ids := fun hm => hc (List.elem_eq_true_of_mem hm)
      refine ⟨⟨Store.insert_sorted _ _ hse, forall_mem_insert hoe ?_⟩, hu, ht⟩
      exact ⟨hok.1, hok.2.1, nodup_append_singleton hok.2.2 hmem⟩

/-- `add_user_ticket` preserves the invariant. -/
theorem add_user_ticket_stinv (s : St) (uid tid now : Nat) (h : StInv s) :
    StInv (add_user_ticket s uid tid now).2 := by
  unfold add_user_ticket
  cases hg : _get_user s uid with
  | none => exact h
  | some u =>
    dsimp only
    split
    · exact h
    next hc =>
      obtain ⟨he, ⟨hsu, hou⟩, ht⟩ := h
      have hok := recOK_of_get hou hg
      have hmem : tid ∉ u.ticket_ids := fun hm => hc (List.elem_eq_true_of_mem hm)
      refine ⟨he, ⟨Store.insert_sorted _ _ hsu, forall_mem_insert hou ?_⟩, ht⟩
      exact ⟨hok.1, nodup_append_singleton hok.2 hmem⟩

/-- `remove_user_ticket` preserves the invariant. -/
theorem remove_user_ticket_stinv (s : St) (uid tid now : Nat) (h : StInv s) :
    StInv (remove_user_ticket s uid tid now).2 := by
  unfold remove_user_ticket
  cases hg : _get_user s uid with
  | none => exact h
  | some u =>
    obtain ⟨he, ⟨hsu, hou⟩, ht⟩ := h
    have hok := recOK_of_get hou hg
    refine ⟨he, ⟨Store.insert_sorted _ _ hsu, forall_mem_insert hou ?_⟩, ht⟩
    exact ⟨hok.1, List.Nodup.filter _ hok.2⟩

/-- `remove_event_ticket` preserves the invariant. -/
theorem remove_event_ticket_stinv (s : St) (eid tid now : Nat) (h : StInv s) :
    StInv (remove_event_ticket s eid tid now).2 := by
  unfold remove_event_ticket
  cases hg : _get_event s eid with
  | none => exact h
  | some e =>
    obtain ⟨⟨hse, hoe⟩, hu, ht⟩ := h
    have hok := recOK_of_get hoe hg
    refine ⟨⟨Store.insert_sorted _ _ hse, forall_mem_insert hoe ?_⟩, hu, ht⟩
    exact ⟨hok.1, hok.2.1, List.Nodup.filter _ hok.2.2⟩

/-- `create_event` preserves the invariant. -/
theorem create_event_stinv (s : St) (p : EventPayload) (now : Nat) (aok : Bool)
    (h : StInv s) : StInv (create_event s p now aok).2 := by
  cases aok with
  | false => exact h
  | true =>
    obtain ⟨⟨hse, hoe⟩, hu, ht⟩ := h
    exact ⟨⟨Store.insert_sorted _ _ hse,
      forall_mem_insert hoe ⟨rfl, List.nodup_nil, List.nodup_nil⟩⟩, hu, ht⟩

/-- `update_event` preserves the invariant. -/
theorem update_event_stinv (s : St) (id : Nat) (p : EventPayload) (now : Nat)
    (h : StInv s) : StInv (update_event s id p now).2 := by
  unfold update_event
  cases hg : _get_event s id with
  | none => exact h
  | some e =>
    obtain ⟨⟨hse, hoe⟩, hu, ht⟩ := h
    have hok := recOK_of_get hoe hg
    exact ⟨⟨Store.insert_sorted _ _ hse,
      forall_mem_insert hoe ⟨hok.1, hok.2.1, hok.2.2⟩⟩, hu, ht⟩

/-- `delete_event` preserves the invariant. -/
theorem delete_event_stinv (s : St) (id : Nat) (h : StInv s) :
    StInv (delete_event s id).2 := by
  unfold delete_event
  cases hg : _get_event s id with
  | none => exact h
  | some e =>
    obtain ⟨⟨hse, hoe⟩, hu, ht⟩ := h
    exact ⟨⟨Store.remove_sorted _ hse, forall_mem_remove hoe⟩, hu, ht⟩

/-- `create_user` preserves the invariant. -/
theorem create_user_stinv (s : St) (p : UserPayload) (now : Nat) (aok : Bool)
    (h : StInv s) : StInv (create_user s p now aok).2 := by
  cases aok with
  | false => exact h
  | true =>
    obtain ⟨he, ⟨hsu, hou⟩, ht⟩ := h
    exact ⟨he, ⟨Store.insert_sorted _ _ hsu,
      forall_mem_insert hou ⟨rfl, List.nodup_nil⟩⟩, ht⟩

/-- `update_user` preserves the invariant. -/
theorem update_user_stinv (s : St) (id : Nat) (p : UserPayload) (now : Nat)
    (h : StInv s) : StInv (update_user s id p now).2 := by
  unfold update_user
  cases hg : _get_user s id with
  | none => exact h
  | some u =>
    obtain ⟨he, ⟨hsu, hou⟩, ht⟩ := h
    have hok := recOK_of_get hou hg
    exact ⟨he, ⟨Store.insert_sorted _ _ hsu,
      forall_mem_insert hou ⟨hok.1, hok.2⟩⟩, ht⟩

/-- `delete_user` preserves the invariant. -/
theorem delete_user_stinv (s : St) (id : Nat) (h : StInv s) :
    StInv (delete_user s id).2 := by
  unfold delete_user
  cases hg : _get_user s id with
  | none => exact h
  | some u =>
    obtain ⟨he, ⟨hsu, hou⟩, ht⟩ := h
    exact ⟨he, ⟨Store.remove_sorted _ hsu, forall_mem_remove hou⟩, ht⟩

/-- `create_ticket` preserves the invariant. -/
theorem create_ticket_stinv (s : St) (p : TicketPayload) (now : Nat) (aok : Bool)
    (h : StInv s) : StInv (create_ticket s p now aok).2 := by
  cases aok with
  | false => exact h
  | true =>
    unfold create_ticket increment_id_counter
    dsimp only
    have h2 : StInv { s with counter := s.counter + 1, tickets := Store.insert s.tickets (s.counter + 1) { id := s.counter + 1, event_id := p.event_id, user_id := p.user_id, created_at := now, updated_at := none } } := by
      obtain ⟨he, hu, ⟨hst, hot⟩⟩ := h
      exact ⟨he, hu, ⟨Store.insert_sorted _ _ hst, forall_mem_insert hot rfl⟩⟩
    split
    next e3 s3 h3 =>
      rw [← pair_snd h3]
      exact add_event_attendee_stinv _ _ _ _ h2
    next u3 s3 h3 =>
      have hi3 : StInv s3 := by
        rw [← pair_snd h3]
        exact add_event_attendee_stinv _ _ _ _ h2
      split
      next e4 s4 h4 =>
        rw [← pair_snd h4]
        exact add_user_ticket_stinv _ _ _ _ hi3
      next u4 s4 h4 =>
        have hi4 : StInv s4 := by
          rw [← pair_snd h4]
          exact add_user_ticket_stinv _ _ _ _ hi3
        split
        next e5 s5 h5 =>
          rw [← pair_snd h5]
          exact add_event_ticket_stinv _ _ _ _ hi4
        next u5 s5 h5 =>
          show StInv s5
          rw [← pair_snd h5]
          exact add_event_ticket_stinv _ _ _ _ hi4

/-- `move_user_step` preserves the invariant. -/
theorem move_user_step_stinv (s : St) (t : Ticket) (uid now : Nat) (h : StInv s) :
    StInv (move_user_step s t uid now).2 := by
  unfold move_user_step
  split
  · split
    next e1 s1 h1 =>
      rw [← pair_snd h1]
      exact remove_user_ticket_stinv _ _ _ _ h
    next u1 s1 h1 =>
      have hi1 : StInv s1 := by
        rw [← pair_snd h1]
        exact remove_user_ticket_stinv _ _ _ _ h
      split
      next e2 s2 h2 =>
        rw [← pair_snd h2]
        exact add_user_ticket_stinv _ _ _ _ hi1
      next u2 s2 h2 =>
        show StInv s2
        rw [← pair_snd h2]
        exact add_user_ticket_stinv _ _ _ _ hi1
  · exact h

/-- `move_event_step` preserves the invariant. -/
theorem move_event_step_stinv (s : St) (t : Ticket) (eid now : Nat) (h : StInv s) :
    StInv (move_event_step s t eid now).2 := by
  unfold move_event_step
  split
  · split
    next e1 s1 h1 =>
      rw [← pair_snd h1]
      exact remove_event_ticket_stinv _ _ _ _ h
    next u1 s1 h1 =>
      have hi1 : StInv s1 := by
        rw [← pair_snd h1]
        exact remove_event_ticket_stinv _ _ _ _ h
      split
      next e2 s2 h2 =>
        rw [← pair_snd h2]
        exact add_event_ticket_stinv _ _ _ _ hi1
      next u2 s2 h2 =>
        show StInv s2
        rw [← pair_snd h2]
        exact add_event_ticket_stinv _ _ _ _ hi1
  · exact h

/-- A successful `move_user_step` only changes the `user_id` field of the
ticket value it carries. -/
theorem move_user_step_ok_fields (s : St) (t : Ticket) (uid now : Nat)
    (t1 : Ticket) (s1 : St) (h : move_user_step s t uid now = (Except.ok t1, s1)) :
    t1.id = t.id ∧ t1.event_id = t.event_id := by
  unfold move_user_step at h
  split at h
  · split at h
    next e1 s1' h1 =>
      injection h with hfst hsnd
      exact Except.noConfusion hfst
    next u1 s1' h1 =>
      split at h
      next e2 s2 h2 =>
        injection h with hfst hsnd
        exact Except.noConfusion hfst
      next u2 s2 h2 =>
        injection h with hfst hsnd
        injection hfst with hfst'
        rw [← hfst']
        exact ⟨rfl, rfl⟩
  · injection h with hfst hsnd
    injection hfst with hfst'
    rw [← hfst']
    exact ⟨rfl, rfl⟩

/-- A successful `move_event_step` only changes the `event_id` field of
the ticket value it carries. -/
theorem move_event_step_ok_fields (s : St) (t : Ticket) (eid now : Nat)
    (t1 : Ticket) (s1 : St) (h : move_event_step s t eid now = (Except.ok t1, s1)) :
    t1.id = t.id ∧ t1.user_id = t.user_id := by
  unfold move_event_step at h
  split at h
  · split at h
    next e1 s1' h1 =>
      injection h with hfst hsnd
      exact Except.noConfusion hfst
    next u1 s1' h1 =>
      split at h
      next e2 s2 h2 =>
        injection h with hfst hsnd
        exact Except.noConfusion hfst
      next u2 s2 h2 =>
        injection h with hfst hsnd
        injection hfst with hfst'
        rw [← hfst']
        exact ⟨rfl, rfl⟩
  · injection h with hfst hsnd
    injection hfst with hfst'
    rw [← hfst']
    exact ⟨rfl, rfl⟩

/-- `update_ticket` preserves the invariant. -/
theorem update_ticket_stinv (s : St) (id : Nat) (p : TicketPayload) (now : Nat)
    (h : StInv s) : StInv (update_ticket s id p now).2 := by
  unfold update_ticket
  cases hg : _get_ticket s id with
  | none => exact h
  | some t =>
    dsimp only
    have htid : t.id = id := recOK_of_get h.2.2.2 hg
    split
    next e1 s1 h1 =>
      rw [← pair_snd h1]
      exact move_user_step_stinv _ _ _ _ h
    next t1 s1 h1 =>
      have hi1 : StInv s1 := by
        rw [← pair_snd h1]
        exact move_user_step_stinv _ _ _ _ h
      have ht1 : t1.id = t.id := (move_user_step_ok_fields _ _ _ _ _ _ h1).1
      split
      next e2 s2 h2 =>
        rw [← pair_snd h2]
        exact move_event_step_stinv _ _ _ _ hi1
      next t2 s2 h2 =>
        have hi2 : StInv s2 := by
          rw [← pair_snd h2]
          exact move_event_step_stinv _ _ _ _ hi1
        have ht2 : t2.id = t1.id := (move_event_step_ok_fields _ _ _ _ _ _ h2).1
        obtain ⟨he, hu, ⟨hst, hot⟩⟩ := hi2
        refine ⟨he, hu, ⟨Store.insert_sorted _ _ hst, forall_mem_insert hot ?_⟩⟩
        show t2.id = id
        rw [ht2, ht1, htid]

/-- `delete_ticket` preserves the invariant. -/
theorem delete_ticket_stinv (s : St) (id now : Nat) (h : StInv s) :
    StInv (delete_ticket s id now).2 := by
  unfold delete_ticket
  cases hg : _get_ticket s id with
  | none => exact h
  | some t =>
    dsimp only
    split
    next e1 s1 h1 =>
      rw [← pair_snd h1]
      exact remove_user_ticket_stinv _ _ _ _ h
    next u1 s1 h1 =>
      have hi1 : StInv s1 := by
        rw [← pair_snd h1]
        exact remove_user_ticket_stinv _ _ _ _ h
      split
      next e2 s2 h2 =>
        rw [← pair_snd h2]
        exact remove_event_ticket_stinv _ _ _ _ hi1
      next u2 s2 h2 =>
        have hi2 : StInv s2 := by
          rw [← pair_snd h2]
          exact remove_event_ticket_stinv _ _ _ _ hi1
        obtain ⟨he, hu, ⟨hst, hot⟩⟩ := hi2
        exact ⟨he, hu, ⟨Store.remove_sorted _ hst, forall_mem_remove hot⟩⟩

/-- Every call preserves the invariant. -/
theorem step_stinv (s : St) (op : Op) (h : StInv s) : StInv (step s op) := by
  cases op with
  | opCreateEvent p now aok => exact create_event_stinv s p now aok h
  | opUpdateEvent id p now => exact update_event_stinv s id p now h
  | opDeleteEvent id => exact delete_event_stinv s id h
  | opCreateUser p now aok => exact create_user_stinv s p now aok h
  | opUpdateUser id p now => exact update_user_stinv s id p now h
  | opDeleteUser id => exact delete_user_stinv s id h
  | opCreateTicket p now aok => exact create_ticket_stinv s p now aok h
  | opUpdateTicket id p now => exact update_ticket_stinv s id p now h
  | opDeleteTicket id now => exact delete_ticket_stinv s id now h

/-- The invariant holds at installation. -/
theorem initState_stinv : StInv initState := by
  refine ⟨⟨List.Pairwise.nil, ?_⟩, ⟨List.Pairwise.nil, ?_⟩, ⟨List.Pairwise.nil, ?_⟩⟩ <;>
    intro p hp <;> cases hp

/-- Running any sequence of calls preserves the invariant. -/
theorem execOps_stinv (s : St) (ops : List Op) (h : StInv s) : StInv (execOps s ops) := by
  induction ops generalizing s with
  | nil => exact h
  | cons op rest ih => exact ih _ (step_stinv s op h)

/-- The invariant holds in every reachable state. -/
theorem reachable_stinv (s : St) (h : Reachable s) : StInv s := by
  obtain ⟨ops, hops⟩ := h
  rw [← hops]
  exact execOps_stinv _ _ initState_stinv

/-! ### Lookup and delete helper lemmas -/

/-- `get_event` on a missing id. -/
theorem get_event_none {s : St} {id : Nat} (h : _get_event s id = none) :
    get_event s id = Except.error (Error.NotFound s!"event id:{id} does not exist") := by
  unfold get_event
  rw [h]

/-- `get_user` on a missing id. -/
theorem get_user_none {s : St} {id : Nat} (h : _get_user s id = none) :
    get_user s id = Except.error (Error.NotFound s!"user id:{id} does not exist") := by
  unfold get_user
  rw [h]

/-- `get_ticket` on a missing id. -/
theorem get_ticket_none {s : St} {id : Nat} (h : _get_ticket s id = none) :
    get_ticket s id = Except.error (Error.NotFound s!"ticket id:{id} does not exist") := by
  unfold get_ticket
  rw [h]

/-- `delete_event` on a missing id. -/
theorem delete_event_none {s : St} {id : Nat} (h : _get_event s id = none) :
    delete_event s id =
      (Except.error (Error.NotFound s!"event id:{id} does not exist"), s) := by
  unfold delete_event
  rw [h]

/-- `delete_event` on a present id removes it. -/
theorem delete_event_some {s : St} {id : Nat} {e : Event} (h : _get_event s id = some e) :
    delete_event s id = (Except.ok s!"event id: {id} deleted",
      { s with events := Store.remove s.events id }) := by
  unfold delete_event
  rw [h]

/-- `delete_user` on a missing id. -/
theorem delete_user_none {s : St} {id : Nat} (h : _get_user s id = none) :
    delete_user s id =
      (Except.error (Error.NotFound s!"user id:{id} does not exist"), s) := by
  unfold delete_user
  rw [h]

/-- `delete_user` on a present id removes it. -/
theorem delete_user_some {s : St} {id : Nat} {u : User} (h : _get_user s id = some u) :
    delete_user s id = (Except.ok s!"user id: {id} deleted",
      { s with users := Store.remove s.users id }) := by
  unfold delete_user
  rw [h]

/-- `delete_ticket` on a missing id. -/
theorem delete_ticket_none {s : St} {id now : Nat} (h : _get_ticket s id = none) :
    delete_ticket s id now =
      (Except.error (Error.NotFound s!"ticket id:{id} does not exist"), s) := by
  unfold delete_ticket
  rw [h]

/-- After a successful `delete_ticket` the ticket record is gone. -/
theorem delete_ticket_ok_gone (s : St) (id now : Nat) (m : String)
    (h : (delete_ticket s id now).1 = Except.ok m) :
    _get_ticket (delete_ticket s id now).2 id = none := by
  unfold delete_ticket at h ⊢
  cases hg : _get_ticket s id with
  | none =>
    rw [hg] at h
    exact Except.noConfusion h
  | some t =>
    rw [hg] at h
    dsimp only at h ⊢
    split at h
    next e1 s1 h1 => exact Except.noConfusion h
    next u1 s1 h1 =>
      split at h
      next e2 s2 h2 => exact Except.noConfusion h
      next u2 s2 h2 =>
        show Store.get (Store.remove s2.tickets id) id = none
        rw [Store.get_remove, if_pos rfl]

/-! ### Concrete states for witnesses (the §8 scenario of the spec) -/

/-- The scenario state is reachable. -/
theorem sW_reachable : Reachable sW := ⟨scenarioOps, by decide⟩

/-! ### The claims -/

/-- **C4**: across any sequence of successful `create_event`,
`create_user` and `create_ticket` calls, interleaved with arbitrary other
calls including deletes, the ids returned by the shared allocator are
strictly increasing, every id is greater than 0, and no id is ever issued
twice — including after its record is deleted. -/
theorem claim_C4_allocator_monotone (ops : List Op) :
    List.Pairwise (· < ·) (traceIssued initState ops) ∧
    (∀ i ∈ traceIssued initState ops, 0 < i) ∧
    (traceIssued initState ops).Nodup := by
  obtain ⟨hb, hp⟩ := traceIssued_bounds ops initState
  exact ⟨hp, hb, hp.imp Nat.ne_of_lt⟩

/-- **C3**: for a ticket id present in the store, if `delete_ticket`
returns an error (a removal step failed on a missing owning record), the
ticket record is still present in the ticket store afterwards, unchanged. -/
theorem claim_C3_failed_delete_keeps_ticket (s : St) (id now : Nat) (T : Ticket)
    (err : Error) (hT : _get_ticket s id = some T)
    (herr : (delete_ticket s id now).1 = Except.error err) :
    _get_ticket (delete_ticket s id now).2 id = some T := by
  unfold delete_ticket at herr ⊢
  rw [hT] at herr ⊢
  dsimp only at herr ⊢
  split at herr
  next e1 s1 h1 =>
    show Store.get s1.tickets id = some T
    rw [← pair_snd h1, remove_user_ticket_tickets]
    exact hT
  next u1 s1 h1 =>
    split at herr
    next e2 s2 h2 =>
      show Store.get s2.tickets id = some T
      rw [← pair_snd h2, remove_event_ticket_tickets, ← pair_snd h1,
        remove_user_ticket_tickets]
      exact hT
    next u2 s2 h2 => exact Except.noConfusion herr

/-- Witness for C3: deleting ticket 3 in a state whose owning user record
is gone fails and leaves the ticket in place. -/
theorem claim_C3_witness :
    _get_ticket sW3 3 = some tW ∧
    (delete_ticket sW3 3 200).1 =
      Except.error (Error.NotFound "user id:2 does not exist") ∧
    _get_ticket (delete_ticket sW3 3 200).2 3 = some tW :=
  ⟨rfl, rfl, claim_C3_failed_delete_keeps_ticket sW3 3 200 tW
    (Error.NotFound "user id:2 does not exist") rfl rfl⟩

/-- **C9**: after a successful `delete(id)`, `get(id)` returns NotFound
and a second `delete(id)` returns NotFound, for all three record kinds
(for tickets, under the precondition that the first `delete_ticket`
succeeded). -/
theorem claim_C9_delete_then_get (s : St) (idE idU idT now now2 : Nat)
    (mE mU mT : String)
    (hE : (delete_event s idE).1 = Except.ok mE)
    (hU : (delete_user s idU).1 = Except.ok mU)
    (hT : (delete_ticket s idT now).1 = Except.ok mT) :
    (get_event (delete_event s idE).2 idE =
        Except.error (Error.NotFound s!"event id:{idE} does not exist") ∧
      (delete_event (delete_event s idE).2 idE).1 =
        Except.error (Error.NotFound s!"event id:{idE} does not exist")) ∧
    (get_user (delete_user s idU).2 idU =
        Except.error (Error.NotFound s!"user id:{idU} does not exist") ∧
      (delete_user (delete_user s idU).2 idU).1 =
        Except.error (Error.NotFound s!"user id:{idU} does not exist")) ∧
    (get_ticket (delete_ticket s idT now).2 idT =
        Except.error (Error.NotFound s!"ticket id:{idT} does not exist") ∧
      (delete_ticket (delete_ticket s idT now).2 idT now2).1 =
        Except.error (Error.NotFound s!"ticket id:{idT} does not exist")) := by
  refine ⟨?_, ?_, ?_⟩
  · cases hg : _get_event s idE with
    | none =>
      rw [show delete_event s idE = _ from delete_event_none hg] at hE
      exact Except.noConfusion hE
    | some e =>
      rw [delete_event_some hg]
      dsimp only
      have hnone : _get_event { s with events := Store.remove s.events idE } idE = none := by
        show Store.get (Store.remove s.events idE) idE = none
        rw [Store.get_remove, if_pos rfl]
      refine ⟨get_event_none hnone, ?_⟩
      rw [delete_event_none hnone]
  · cases hg : _get_user s idU with
    | none =>
      rw [show delete_user s idU = _ from delete_user_none hg] at hU
      exact Except.noConfusion hU
    | some u =>
      rw [delete_user_some hg]
      dsimp only
      have hnone : _get_user { s with users := Store.remove s.users idU } idU = none := by
        show Store.get (Store.remove s.users idU) idU = none
        rw [Store.get_remove, if_pos rfl]
      refine ⟨get_user_none hnone, ?_⟩
      rw [delete_user_none hnone]
  · have hgone := delete_ticket_ok_gone s idT now mT hT
    refine ⟨get_ticket_none hgone, ?_⟩
    rw [delete_ticket_none hgone]

/-- Witness for C9: delete event 1, user 2 and ticket 3 of the scenario
state; every re-read and re-delete reports NotFound. -/
theorem claim_C9_witness :
    (delete_event sW 1).1 = Except.ok "event id: 1 deleted" ∧
    (delete_user sW 2).1 = Except.ok "user id: 2 deleted" ∧
    (delete_ticket sW 3 200).1 = Except.ok "ticket id: 3 deleted" ∧
    ((get_event (delete_event sW 1).2 1 =
        Except.error (Error.NotFound "event id:1 does not exist") ∧
      (delete_event (delete_event sW 1).2 1).1 =
        Except.error (Error.NotFound "event id:1 does not exist")) ∧
    (get_user (delete_user sW 2).2 2 =
        Except.error (Error.NotFound "user id:2 does not exist") ∧
      (delete_user (delete_user sW 2).2 2).1 =
        Except.error (Error.NotFound "user id:2 does not exist")) ∧
    (get_ticket (delete_ticket sW 3 200).2 3 =
        Except.error (Error.NotFound "ticket id:3 does not exist") ∧
      (delete_ticket (delete_ticket sW 3 200).2 3 201).1 =
        Except.error (Error.NotFound "ticket id:3 does not exist"))) :=
  ⟨rfl, rfl, rfl,
    claim_C9_delete_then_get sW 1 2 3 200 201
      "event id: 1 deleted" "user id: 2 deleted" "ticket id: 3 deleted" rfl rfl rfl⟩

/-- **C8**: for existing event and user records, `update_event` /
`update_user` set `updated_at` to a value at least the previous
`updated_at` (or `created_at` when never updated) and leave every field
not in the payload unchanged — in particular `id`, `created_at`,
`attendee_ids`, `ticket_ids` and `event_ids`. -/
theorem claim_C8_update_frame (s : St) (idE idU now : Nat) (pe : EventPayload)
    (pu : UserPayload) (e : Event) (u : User)
    (hE : _get_event s idE = some e) (hU : _get_user s idU = some u)
    (hnE : e.updated_at.getD e.created_at ≤ now)
    (hnU : u.updated_at.getD u.created_at ≤ now) :
    (∃ e', (update_event s idE pe now).1 = Except.ok e' ∧
      _get_event (update_event s idE pe now).2 idE = some e' ∧
      e'.updated_at = some now ∧ e.updated_at.getD e.created_at ≤ now ∧
      e'.id = e.id ∧ e'.created_at = e.created_at ∧
      e'.attendee_ids = e.attendee_ids ∧ e'.ticket_ids = e.ticket_ids ∧
      e'.name = pe.name ∧ e'.description = pe.description ∧ e'.date = pe.date ∧
      e'.start_time = pe.start_time ∧ e'.location = pe.location) ∧
    (∃ u', (update_user s idU pu now).1 = Except.ok u' ∧
      _get_user (update_user s idU pu now).2 idU = some u' ∧
      u'.updated_at = some now ∧ u.updated_at.getD u.created_at ≤ now ∧
      u'.id = u.id ∧ u'.created_at = u.created_at ∧
      u'.event_ids = u.event_ids ∧ u'.ticket_ids = u.ticket_ids ∧
      u'.name = pu.name ∧ u'.email = pu.email ∧ u'.password = pu.password) := by
  constructor
  · unfold update_event
    rw [hE]
    dsimp only
    refine ⟨_, rfl, ?_, rfl, hnE, rfl, rfl, rfl, rfl, rfl, rfl, rfl, rfl, rfl⟩
    show Store.get (Store.insert s.events idE _) idE = _
    rw [Store.get_insert, if_pos rfl]
  · unfold update_user
    rw [hU]
    dsimp only
    refine ⟨_, rfl, ?_, rfl, hnU, rfl, rfl, rfl, rfl, rfl, rfl, rfl⟩
    show Store.get (Store.insert s.users idU _) idU = _
    rw [Store.get_insert, if_pos rfl]

/-- Witness for C8: update event 1 and user 2 of the scenario state at
time 200. -/
theorem claim_C8_witness :
    _get_event sW 1 = some eW ∧ _get_user sW 2 = some uW ∧
    eW.updated_at.getD eW.created_at ≤ 200 ∧ uW.updated_at.getD uW.created_at ≤ 200 ∧
    ((∃ e', (update_event sW 1 ⟨"E2", "d2", "2024-06-01", "11", "loc2"⟩ 200).1 =
        Except.ok e' ∧
      _get_event (update_event sW 1 ⟨"E2", "d2", "2024-06-01", "11", "loc2"⟩ 200).2 1 =
        some e' ∧
      e'.updated_at = some 200 ∧ eW.updated_at.getD eW.created_at ≤ 200 ∧
      e'.id = eW.id ∧ e'.created_at = eW.created_at ∧
      e'.attendee_ids = eW.attendee_ids ∧ e'.ticket_ids = eW.ticket_ids ∧
      e'.name = "E2" ∧ e'.description = "d2" ∧ e'.date = "2024-06-01" ∧
      e'.start_time = "11" ∧ e'.location = "loc2") ∧
    (∃ u', (update_user sW 2 ⟨"ann", "ann@x.com", "pw2"⟩ 200).1 = Except.ok u' ∧
      _get_user (update_user sW 2 ⟨"ann", "ann@x.com", "pw2"⟩ 200).2 2 = some u' ∧
      u'.updated_at = some 200 ∧ uW.updated_at.getD uW.created_at ≤ 200 ∧
      u'.id = uW.id ∧ u'.created_at = uW.created_at ∧
      u'.event_ids = uW.event_ids ∧ u'.ticket_ids = uW.ticket_ids ∧
      u'.name = "ann" ∧ u'.email = "ann@x.com" ∧ u'.password = "pw2")) :=
  ⟨rfl, rfl, by decide, by decide,
    claim_C8_update_frame sW 1 2 200 ⟨"E2", "d2", "2024-06-01", "11", "loc2"⟩
      ⟨"ann", "ann@x.com", "pw2"⟩ eW uW rfl rfl (by decide) (by decide)⟩

/-- **C6**: each relationship add (`add_event_attendee`, `add_event_ticket`,
`add_user_ticket`) is idempotent — adding an already-present id returns Ok
and leaves the whole state (hence the record, its lists and `updated_at`)
unchanged — and consequently `attendee_ids` and `ticket_ids` contain no
duplicates in any reachable state. -/
theorem claim_C6_idempotent_adds :
    (∀ (s : St) (eid uid now : Nat) (e : Event), _get_event s eid = some e →
      uid ∈ e.attendee_ids → add_event_attendee s eid uid now = (Except.ok (), s)) ∧
    (∀ (s : St) (eid tid now : Nat) (e : Event), _get_event s eid = some e →
      tid ∈ e.ticket_ids → add_event_ticket s eid tid now = (Except.ok (), s)) ∧
    (∀ (s : St) (uid tid now : Nat) (u : User), _get_user s uid = some u →
      tid ∈ u.ticket_ids → add_user_ticket s uid tid now = (Except.ok (), s)) ∧
    (∀ s : St, Reachable s →
      (∀ (k : Nat) (e : Event), Store.get s.events k = some e →
        e.attendee_ids.Nodup ∧ e.ticket_ids.Nodup) ∧
      (∀ (k : Nat) (u : User), Store.get s.users k = some u → u.ticket_ids.Nodup)) := by
  refine ⟨?_, ?_, ?_, ?_⟩
  · intro s eid uid now e h hmem
    unfold add_event_attendee
    rw [h]
    dsimp only
    rw [if_pos (List.elem_eq_true_of_mem hmem)]
  · intro s eid tid now e h hmem
    unfold add_event_ticket
    rw [h]
    dsimp only
    rw [if_pos (List.elem_eq_true_of_mem hmem)]
  · intro s uid tid now u h hmem
    unfold add_user_ticket
    rw [h]
    dsimp only
    rw [if_pos (List.elem_eq_true_of_mem hmem)]
  · intro s hreach
    have hinv := reachable_stinv s hreach
    obtain ⟨⟨hse, hoe⟩, ⟨hsu, hou⟩, _⟩ := hinv
    constructor
    · intro k e hk
      have := recOK_of_get hoe hk
      exact ⟨this.2.1, this.2.2⟩
    · intro k u hk
      exact (recOK_of_get hou hk).2

/-- Witness for C6: re-adding attendee 2, event ticket 3 and user ticket 3
to the scenario state is a complete no-op, and the scenario state's lists
are duplicate free. -/
theorem claim_C6_witness :
    add_event_attendee sW 1 2 999 = (Except.ok (), sW) ∧
    add_event_ticket sW 1 3 999 = (Except.ok (), sW) ∧
    add_user_ticket sW 2 3 999 = (Except.ok (), sW) ∧
    (eW.attendee_ids.Nodup ∧ eW.ticket_ids.Nodup) ∧ uW.ticket_ids.Nodup :=
  ⟨claim_C6_idempotent_adds.1 sW 1 2 999 eW rfl (by decide),
   claim_C6_idempotent_adds.2.1 sW 1 3 999 eW rfl (by decide),
   claim_C6_idempotent_adds.2.2.1 sW 2 3 999 uW rfl (by decide),
   (claim_C6_idempotent_adds.2.2.2 sW sW_reachable).1 1 eW rfl,
   (claim_C6_idempotent_adds.2.2.2 sW sW_reachable).2 2 uW rfl⟩

/-- **C10**: in any reachable state, `get_all_events` returns exactly the
events present in the event store, listed in strictly increasing order of
id, regardless of the order of the preceding creates, updates and
deletes. -/
theorem claim_C10_get_all_events_sorted (s : St) (h : Reachable s) :
    (∀ e : Event, e ∈ get_all_events s ↔ ∃ k, Store.get s.events k = some e) ∧
    List.Chain' (fun a b : Event => a.id < b.id) (get_all_events s) := by
  have hinv := reachable_stinv s h
  obtain ⟨⟨hse, hoe⟩, _, _⟩ := hinv
  have hse' : List.Pairwise (fun p q : Nat × Event => p.1 < q.1) s.events := hse
  constructor
  · intro e
    constructor
    · intro he
      rcases List.mem_map.mp he with ⟨p, hp, hpe⟩
      obtain ⟨k, v⟩ := p
      have hv : v = e := hpe
      exact ⟨k, hv ▸ Store.get_of_mem hse hp⟩
    · rintro ⟨k, hk⟩
      exact List.mem_map.mpr ⟨(k, e), Store.mem_of_get hk, rfl⟩
  · have hp : List.Pairwise (fun p q : Nat × Event => p.2.id < q.2.id) s.events := by
      refine List.Pairwise.imp_of_mem ?_ hse'
      intro p q hpm hqm hlt
      rw [(hoe p hpm).1, (hoe q hqm).1]
      exact hlt
    have hmap : List.Pairwise (fun a b : Event => a.id < b.id) (get_all_events s) := by
      rw [get_all_events, List.pairwise_map]
      exact hp
    exact hmap.chain'

/-- Witness for C10, at the reachable scenario state. -/
theorem claim_C10_witness :
    Reachable sW ∧
    (eW ∈ get_all_events sW ↔ ∃ k, Store.get sW.events k = some eW) ∧
    List.Chain' (fun a b : Event => a.id < b.id) (get_all_events sW) :=
  ⟨sW_reachable, (claim_C10_get_all_events_sorted sW sW_reachable).1 eW,
   (claim_C10_get_all_events_sorted sW sW_reachable).2⟩

/-- Composing the three relationship adds of `create_ticket`: starting
from any state holding event `E` and user `U`, after
`add_event_attendee`, `add_user_ticket`, `add_event_ticket` the event
lists `tid` and `U`, and the user lists `tid`. -/
theorem create_ticket_linkage_aux (s0 : St) (E U tid now : Nat)
    (r3 : Except Error Unit) (s3 : St)
    (h3 : add_event_attendee s0 E U now = (r3, s3))
    (r4 : Except Error Unit) (s4 : St)
    (h4 : add_user_ticket s3 U tid now = (r4, s4))
    (r5 : Except Error Unit) (s5 : St)
    (h5 : add_event_ticket s4 E tid now = (r5, s5))
    (e : Event) (u : User)
    (hE : _get_event s0 E = some e) (hU : _get_user s0 U = some u) :
    (∃ e', _get_event s5 E = some e' ∧ tid ∈ e'.ticket_ids ∧ U ∈ e'.attendee_ids) ∧
    (∃ u', _get_user s5 U = some u' ∧ tid ∈ u'.ticket_ids) := by
  obtain ⟨hok3, e1, hge1, hmemU, htick1, hid1, hpres1⟩ :=
    add_event_attendee_spec s0 E U now e hE
  rw [h3] at hge1
  dsimp only at hge1
  have husers3 : s3.users = s0.users := by
    rw [← pair_snd h3, add_event_attendee_users]
  have hU3 : _get_user s3 U = some u := by
    show Store.get s3.users U = some u
    rw [husers3]
    exact hU
  obtain ⟨hok4, u1, hgu1, hmemT, hidu1⟩ := add_user_ticket_spec s3 U tid now u hU3
  rw [h4] at hgu1
  dsimp only at hgu1
  have hevents4 : s4.events = s3.events := by
    rw [← pair_snd h4, add_user_ticket_events]
  have hE4 : _get_event s4 E = some e1 := by
    show Store.get s4.events E = some e1
    rw [hevents4]
    exact hge1
  obtain ⟨hok5, e2, hge2, hmemtid, hatt2eq, hid2⟩ :=
    add_event_ticket_spec s4 E tid now e1 hE4
  rw [h5] at hge2
  dsimp only at hge2
  have husers5 : s5.users = s4.users := by
    rw [← pair_snd h5, add_event_ticket_users]
  have hU5 : _get_user s5 U = some u1 := by
    show Store.get s5.users U = some u1
    rw [husers5]
    exact hgu1
  refine ⟨⟨e2, hge2, hmemtid, ?_⟩, ⟨u1, hU5, hmemT⟩⟩
  rw [hatt2eq]
  exact hmemU

/-- **C1**: for an event `E` and a user `U` existing in the stores, if
`create_ticket {event_id := E, user_id := U}` returns Ok with ticket `T`,
then afterwards `T.id ∈ Event[E].ticket_ids`, `T.id ∈ User[U].ticket_ids`,
and `U ∈ Event[E].attendee_ids`. -/
theorem claim_C1_create_ticket_linkage (s : St) (E U now : Nat) (aok : Bool)
    (e : Event) (u : User) (T : Ticket)
    (hE : _get_event s E = some e) (hU : _get_user s U = some u)
    (hok : (create_ticket s ⟨E, U⟩ now aok).1 = Except.ok T) :
    (∃ e', _get_event (create_ticket s ⟨E, U⟩ now aok).2 E = some e' ∧
      T.id ∈ e'.ticket_ids ∧ U ∈ e'.attendee_ids) ∧
    (∃ u', _get_user (create_ticket s ⟨E, U⟩ now aok).2 U = some u' ∧
      T.id ∈ u'.ticket_ids) := by
  have hT := create_ticket_ok_fields s ⟨E, U⟩ now aok T hok
  cases aok with
  | false => exact Except.noConfusion hok
  | true =>
    unfold create_ticket increment_id_counter at hok ⊢
    dsimp only at hok ⊢
    split at hok
    next e3 s3 h3 => exact Except.noConfusion hok
    next u3 s3 h3 =>
      split at hok
      next e4 s4 h4 => exact Except.noConfusion hok
      next u4 s4 h4 =>
        split at hok
        next e5 s5 h5 => exact Except.noConfusion hok
        next u5 s5 h5 =>
          obtain ⟨⟨e2, hge2, hmem2, hatt2⟩, ⟨u1, hgu1, hmem1⟩⟩ :=
            create_ticket_linkage_aux _ E U (s.counter + 1) now _ _ h3 _ _ h4 _ _ h5
              e u hE hU
          refine ⟨⟨e2, hge2, ?_, hatt2⟩, ⟨u1, hgu1, ?_⟩⟩
          · rw [hT]
            exact hmem2
          · rw [hT]
            exact hmem1

/-- Witness for C1: creating a ticket for event 1 and user 2 in the
scenario state links it on both sides. -/
theorem claim_C1_witness :
    _get_event sW 1 = some eW ∧ _get_user sW 2 = some uW ∧
    (create_ticket sW ⟨1, 2⟩ 200 true).1 =
      Except.ok { id := 4, event_id := 1, user_id := 2, created_at := 200,
                  updated_at := none } ∧
    ((∃ e', _get_event (create_ticket sW ⟨1, 2⟩ 200 true).2 1 = some e' ∧
      (4 : Nat) ∈ e'.ticket_ids ∧ (2 : Nat) ∈ e'.attendee_ids) ∧
    (∃ u', _get_user (create_ticket sW ⟨1, 2⟩ 200 true).2 2 = some u' ∧
      (4 : Nat) ∈ u'.ticket_ids)) :=
  ⟨rfl, rfl, rfl,
    claim_C1_create_ticket_linkage sW 1 2 200 true eW uW
      { id := 4, event_id := 1, user_id := 2, created_at := 200, updated_at := none }
      rfl rfl rfl⟩

/-- A successful `move_user_step` with a genuinely new user id: the old
user no longer lists the ticket, the new user lists it, and the event and
ticket stores are untouched. -/
theorem move_user_step_ok_spec (s : St) (T : Ticket) (U2 now : Nat)
    (hne : (U2 != T.user_id) = true) (t1 : Ticket) (s1 : St)
    (h : move_user_step s T U2 now = (Except.ok t1, s1)) :
    (∃ u1', _get_user s1 T.user_id = some u1' ∧ T.id ∉ u1'.ticket_ids) ∧
    (∃ u2', _get_user s1 U2 = some u2' ∧ T.id ∈ u2'.ticket_ids) ∧
    s1.events = s.events ∧ s1.tickets = s.tickets ∧
    t1 = { T with user_id := U2 } := by
  unfold move_user_step at h
  rw [if_pos hne] at h
  split at h
  next e1 sr h1 =>
    injection h with hx hy
    exact Except.noConfusion hx
  next u1 sr h1 =>
    split at h
    next e2 sa h2 =>
      injection h with hx hy
      exact Except.noConfusion hx
    next u2 sa h2 =>
      injection h with hx hy
      injection hx with hx'
      cases hu : _get_user s T.user_id with
      | none =>
        rw [remove_user_ticket_none s T.user_id T.id now hu] at h1
        injection h1 with ha hb
        exact Except.noConfusion ha
      | some uOld =>
        have hrs := remove_user_ticket_spec s T.user_id T.id now uOld hu
        rw [h1] at hrs
        injection hrs with hra hrb
        cases hu2 : _get_user sr U2 with
        | none =>
          rw [add_user_ticket_none sr U2 T.id now hu2] at h2
          injection h2 with ha hb
          exact Except.noConfusion ha
        | some u2Old =>
          obtain ⟨hok2, u2', hgu2, hmem2, hid2⟩ :=
            add_user_ticket_spec sr U2 T.id now u2Old hu2
          rw [h2] at hgu2
          dsimp only at hgu2
          have hne' : ¬ T.user_id = U2 := by
            intro hh
            rw [hh] at hne
            rw [bne_self_eq_false] at hne
            exact Bool.false_ne_true hne
          have hga : _get_user sa T.user_id = _get_user sr T.user_id := by
            have hfr := add_user_ticket_get_ne sr U2 T.id now T.user_id hne'
            rw [h2] at hfr
            dsimp only at hfr
            exact hfr
          have hgr : _get_user sr T.user_id =
              some { uOld with
                ticket_ids := uOld.ticket_ids.filter (fun i => i != T.id)
                updated_at := some now } := by
            rw [hrb]
            show Store.get (Store.insert s.users T.user_id _) T.user_id = _
            rw [Store.get_insert, if_pos rfl]
          refine ⟨⟨{ uOld with ticket_ids := uOld.ticket_ids.filter (fun i => i != T.id), updated_at := some now }, ?_, ?_⟩, ⟨u2', ?_, hmem2⟩, ?_, ?_, hx'.symm⟩
          · rw [← hy, hga]
            exact hgr
          · intro hmem
            have hf := List.mem_filter.mp hmem
            rw [bne_self_eq_false] at hf
            exact Bool.false_ne_true hf.2
          · rw [← hy]
            exact hgu2
          · rw [← hy, ← pair_snd h2, add_user_ticket_events, hrb]
          · rw [← hy, ← pair_snd h2, add_user_ticket_tickets, hrb]

/-- **C5**: for a stored ticket `T` currently owned by `U1`, a successful
`update_ticket (T.id) {user_id := U2, event_id := T.event_id}` with
`U2 ≠ U1` removes `T.id` from `User[U1].ticket_ids`, adds it to
`User[U2].ticket_ids`, and leaves `Event[T.event_id]` (hence its
`ticket_ids` and `attendee_ids`) unchanged. -/
theorem claim_C5_ticket_reassignment (s : St) (id U1 U2 now : Nat) (T T' : Ticket)
    (hT : _get_ticket s id = some T) (hU1 : T.user_id = U1) (hne : U2 ≠ U1)
    (hok : (update_ticket s id ⟨T.event_id, U2⟩ now).1 = Except.ok T') :
    (∃ u1', _get_user (update_ticket s id ⟨T.event_id, U2⟩ now).2 U1 = some u1' ∧
      T.id ∉ u1'.ticket_ids) ∧
    (∃ u2', _get_user (update_ticket s id ⟨T.event_id, U2⟩ now).2 U2 = some u2' ∧
      T.id ∈ u2'.ticket_ids) ∧
    _get_event (update_ticket s id ⟨T.event_id, U2⟩ now).2 T.event_id =
      _get_event s T.event_id := by
  unfold update_ticket at hok ⊢
  rw [hT] at hok ⊢
  dsimp only at hok ⊢
  split at hok
  next e1 s1 h1 => exact Except.noConfusion hok
  next t1 s1 h1 =>
    have hbne : (U2 != T.user_id) = true := by
      rw [hU1]
      exact bne_iff_ne.mpr hne
    obtain ⟨⟨u1', hgu1, hnot1⟩, ⟨u2', hgu2, hmem2⟩, hev1, htk1, ht1⟩ :=
      move_user_step_ok_spec s T U2 now hbne t1 s1 h1
    split at hok
    next e2 s2 h2 => exact Except.noConfusion hok
    next t2 s2 h2 =>
      have hfalse : (T.event_id != t1.event_id) = false := by
        rw [ht1]
        exact bne_self_eq_false T.event_id
      have hcond : ¬ ((T.event_id != t1.event_id) = true) := by
        rw [hfalse]
        exact Bool.false_ne_true
      unfold move_event_step at h2
      rw [if_neg hcond] at h2
      injection h2 with hx hy
      refine ⟨⟨u1', ?_, hnot1⟩, ⟨u2', ?_, hmem2⟩, ?_⟩
      · show Store.get s2.users U1 = some u1'
        rw [← hy, ← hU1]
        exact hgu1
      · show Store.get s2.users U2 = some u2'
        rw [← hy]
        exact hgu2
      · show Store.get s2.events T.event_id = Store.get s.events T.event_id
        rw [← hy, hev1]

/-- Witness for C5: moving ticket 3 from user 2 to user 4. -/
theorem claim_C5_witness :
    _get_ticket sW2 3 = some tW ∧ tW.user_id = 2 ∧ (4 : Nat) ≠ 2 ∧
    (update_ticket sW2 3 ⟨tW.event_id, 4⟩ 200).1 =
      Except.ok { id := 3, event_id := 1, user_id := 4, created_at := 102,
                  updated_at := some 200 } ∧
    ((∃ u1', _get_user (update_ticket sW2 3 ⟨tW.event_id, 4⟩ 200).2 2 = some u1' ∧
      tW.id ∉ u1'.ticket_ids) ∧
    (∃ u2', _get_user (update_ticket sW2 3 ⟨tW.event_id, 4⟩ 200).2 4 = some u2' ∧
      tW.id ∈ u2'.ticket_ids) ∧
    _get_event (update_ticket sW2 3 ⟨tW.event_id, 4⟩ 200).2 tW.event_id =
      _get_event sW2 tW.event_id) :=
  ⟨rfl, rfl, by decide, rfl,
    claim_C5_ticket_reassignment sW2 3 2 4 200 tW
      { id := 3, event_id := 1, user_id := 4, created_at := 102, updated_at := some 200 }
      rfl rfl (by decide) rfl⟩

/-- Counterexample to C2: when the durable counter commit fails,
`create_ticket` returns an `AssociationError` carrying `Ticket::default()`
even though nothing was persisted — the carried ticket is not the record
stored under its id (id 0 holds nothing). -/
theorem claim_C2_counterexample :
    (create_ticket sW ⟨1, 2⟩ 200 false).1 =
      Except.error (AssociationError.Err
        "Failed to increment ID counter: Failed to increment ID counter" Ticket.deflt) ∧
    (create_ticket sW ⟨1, 2⟩ 200 false).2 = sW ∧
    _get_ticket (create_ticket sW ⟨1, 2⟩ 200 false).2 Ticket.deflt.id ≠
      some Ticket.deflt :=
  ⟨rfl, rfl, by decide⟩

/-- **C2 (amended)**: whenever `create_ticket` returns an
`AssociationError` after a successful id allocation (a relationship-link
step failed), the carried ticket has been persisted and equals the record
stored under its id, which is the freshly allocated id; when the id
allocation itself fails, the error instead carries `Ticket::default()`
and the state is unchanged (nothing persisted). -/
theorem claim_C2_association_error (s : St) (p : TicketPayload) (now : Nat) :
    (∀ ae : AssociationError, (create_ticket s p now true).1 = Except.error ae →
      _get_ticket (create_ticket s p now true).2 ae.ticket.id = some ae.ticket ∧
      ae.ticket.id = s.counter + 1) ∧
    (∀ ae : AssociationError, (create_ticket s p now false).1 = Except.error ae →
      ae.ticket = Ticket.deflt ∧ (create_ticket s p now false).2 = s) := by
  constructor
  · intro ae h
    unfold create_ticket increment_id_counter at h ⊢
    dsimp only at h ⊢
    split at h
    next e3 s3 h3 =>
      injection h with h'
      rw [← h']
      simp only [AssociationError.ticket]
      constructor
      · show Store.get s3.tickets _ = _
        rw [← pair_snd h3, add_event_attendee_tickets]
        show Store.get (Store.insert s.tickets (s.counter + 1) _) _ = _
        rw [Store.get_insert, if_pos rfl]
      · trivial
    next u3 s3 h3 =>
      split at h
      next e4 s4 h4 =>
        injection h with h'
        rw [← h']
        simp only [AssociationError.ticket]
        constructor
        · show Store.get s4.tickets _ = _
          rw [← pair_snd h4, add_user_ticket_tickets, ← pair_snd h3,
            add_event_attendee_tickets]
          show Store.get (Store.insert s.tickets (s.counter + 1) _) _ = _
          rw [Store.get_insert, if_pos rfl]
        · trivial
      next u4 s4 h4 =>
        split at h
        next e5 s5 h5 =>
          injection h with h'
          rw [← h']
          simp only [AssociationError.ticket]
          constructor
          · show Store.get s5.tickets _ = _
            rw [← pair_snd h5, add_event_ticket_tickets, ← pair_snd h4,
              add_user_ticket_tickets, ← pair_snd h3, add_event_attendee_tickets]
            show Store.get (Store.insert s.tickets (s.counter + 1) _) _ = _
            rw [Store.get_insert, if_pos rfl]
          · trivial
        next u5 s5 h5 => exact Except.noConfusion h
  · intro ae h
    injection h with h'
    rw [← h']
    exact ⟨rfl, rfl⟩

/-- Witness for the amended C2: creating a ticket in the empty state
fails at the attendee link, yet the carried ticket sits in the store
under the freshly allocated id 1. -/
theorem claim_C2_witness :
    (create_ticket initState ⟨1, 2⟩ 5 true).1 = Except.error aeW ∧
    (_get_ticket (create_ticket initState ⟨1, 2⟩ 5 true).2 aeW.ticket.id =
        some aeW.ticket ∧
      aeW.ticket.id = initState.counter + 1) :=
  ⟨rfl, (claim_C2_association_error initState ⟨1, 2⟩ 5).1 aeW rfl⟩

/-- Counterexample to C7: in the §8 scenario (event 1, user 2, ticket 3
linked), deleting event 1 and then calling `get_user_tickets 2` does NOT
surface a NotFound naming the event — it returns Ok with the ticket list,
because `get_user_tickets` only resolves ticket ids and the ticket record
still exists. -/
theorem claim_C7_counterexample :
    execOps initState scenarioOps = sW ∧
    (delete_event sW 1).1 = Except.ok "event id: 1 deleted" ∧
    get_user_tickets (delete_event sW 1).2 2 = Except.ok [tW] :=
  ⟨by decide, rfl, rfl⟩

/-- **C7 (amended)**: in the concrete scenario, after `delete_event 1`
the call `get_user_tickets 2` returns Ok with the ticket list — the
surviving ticket still references the deleted event (`tW.event_id = 1`,
now dangling) — and the dangling reference is surfaced instead by the
event-side reads: `get_event_tickets 1` and `get_event_attendees 1`
return NotFound naming event 1. -/
theorem claim_C7_no_cascade :
    execOps initState scenarioOps = sW ∧
    (delete_event sW 1).1 = Except.ok "event id: 1 deleted" ∧
    get_user_tickets (delete_event sW 1).2 2 = Except.ok [tW] ∧
    tW.event_id = 1 ∧
    _get_event (delete_event sW 1).2 1 = none ∧
    get_event_tickets (delete_event sW 1).2 1 =
      Except.error (Error.NotFound "event id:1 does not exist") ∧
    get_event_attendees (delete_event sW 1).2 1 =
      Except.error (Error.NotFound "event id:1 does not exist") :=
  ⟨by decide, rfl, rfl, rfl, rfl, rfl, rfl⟩

/-- Witness for C4, on the scenario trace: the issued ids 1, 2, 3 are
strictly increasing, positive and duplicate free. -/
theorem claim_C4_witness :
    List.Pairwise (· < ·) (traceIssued initState scenarioOps) ∧
    (∀ i ∈ traceIssued initState scenarioOps, 0 < i) ∧
    (traceIssued initState scenarioOps).Nodup :=
  claim_C4_allocator_monotone scenarioOps
